import Mathlib

/-!
Shallow embedding of the ppp-telemetry-service ingestion and dashboard layer.

Conventions of the embedding:
* TypeScript `number` values are modelled as `Int` (the service only copies
  them between payload fields and database columns; no arithmetic on them
  matters to the properties below, except timestamps, which are modelled as
  integer milliseconds since the epoch, the value `Date.getTime()` returns).
* TypeScript string-literal union types (battery status, usb type, ...) are
  modelled as `String`.
* Optional payload fields (`field?:`) are modelled as `Option`.
* JavaScript `Date` values are modelled by their millisecond timestamp.
  Parsing an ISO-8601 string with `new Date(s)` is external library
  behaviour; route models take it as an explicit function argument
  `parseDate : String → Int`.
* The database is a record of tables, each table a list of rows in insertion
  order.  Serial primary keys are materialised only for the tables whose ids
  the code observes (`devices`, `telemetry_readings`,
  `storage_device_readings`, via `.returning(...)`); the unobserved serial
  `id` columns of the other child tables are omitted from their row types.
* `Promise.all` over independent inserts is modelled by appending all the
  produced rows to their tables in the listed order.
-/

/-! ## Payload types (src/lib/server/telemetry/types.ts) -/

inductive TelemetryFrequency where
  | high
  | medium
  | low
deriving DecidableEq

structure BatteryTelemetry where
  capacity : Int
  status : String
  voltage : Int
  current : Int
  temperature : Int
  chargeFull : Int
  chargeFullDesign : Int
  health : String
  present : Bool
  chargeType : String
  energyFullDesign : Int
deriving DecidableEq

structure UsbInputTelemetry where
  present : Bool
  health : String
  inputCurrentLimit : Int
  inputVoltageLimit : Int
deriving DecidableEq

structure UsbCPdTelemetry where
  online : Bool
  voltage : Int
  voltageMin : Int
  voltageMax : Int
  current : Int
  currentMax : Int
  usbType : String
deriving DecidableEq

structure TypeCPortTelemetry where
  dataRole : String
  powerRole : String
  orientation : String
  powerOperationMode : String
  vconnSource : Bool
deriving DecidableEq

structure PowerTelemetry where
  battery : BatteryTelemetry
  usbInput : UsbInputTelemetry
  usbCPd : UsbCPdTelemetry
  typeCPort : TypeCPortTelemetry
deriving DecidableEq

structure TripPoint where
  index : Int
  temperature : Int
  type : String
deriving DecidableEq

structure ThermalZoneTelemetry where
  zone : Int
  type : String
  temperature : Int
  tripPoints : Option (List TripPoint)
deriving DecidableEq

structure CoolingDeviceTelemetry where
  index : Int
  type : String
  currentState : Int
  maxState : Int
deriving DecidableEq

structure ThermalTelemetry where
  zones : List ThermalZoneTelemetry
  coolingDevices : List CoolingDeviceTelemetry
  batteryTemp : Int
  cpuTemp : Int
  gpuTemp : Int
deriving DecidableEq

structure CpuFrequencyTelemetry where
  cpu : Int
  currentFreq : Int
  minFreq : Int
  maxFreq : Int
  hardwareMinFreq : Int
  hardwareMaxFreq : Int
  governor : String
deriving DecidableEq

structure CpuTimeTelemetry where
  cpu : String
  user : Int
  nice : Int
  system : Int
  idle : Int
  iowait : Int
  irq : Int
  softirq : Int
  steal : Int
deriving DecidableEq

structure LoadAverage where
  load1 : Int
  load5 : Int
  load15 : Int
  runningProcesses : Int
  totalProcesses : Int
deriving DecidableEq

structure CpuTimeInState where
  frequency : Int
  timeMs : Int
deriving DecidableEq

structure CpuFrequencyStatsT where
  cpu : Int
  timeInState : List CpuTimeInState
  totalTransitions : Int
deriving DecidableEq

structure CpuIdleStateTelemetry where
  index : Int
  name : String
  description : String
  usage : Int
  timeUs : Int
  latencyUs : Int
deriving DecidableEq

structure CpuIdleTelemetry where
  cpu : Int
  states : List CpuIdleStateTelemetry
deriving DecidableEq

/-- The `Pick<CpuTelemetry, ...>` shape used by `HighFrequencyTelemetry`. -/
structure HighCpuTelemetry where
  frequencies : List CpuFrequencyTelemetry
  cpuTimes : List CpuTimeTelemetry
  loadAverage : LoadAverage
  uptime : Int
  idleTime : Int
  onlineCpus : List Int
  offlineCpus : List Int
deriving DecidableEq

structure MemoryTelemetry where
  total : Int
  free : Int
  available : Int
  buffers : Int
  cached : Int
  swapTotal : Int
  swapFree : Int
  swapUsed : Int
  active : Int
  inactive : Int
  activeAnon : Int
  inactiveAnon : Int
  activeFile : Int
  inactiveFile : Int
  dirty : Int
  writeback : Int
  anonPages : Int
  mapped : Int
  shmem : Int
  slab : Int
  sReclaimable : Int
  sUnreclaim : Int
  usedPercent : Int
  swapUsedPercent : Int
deriving DecidableEq

structure NetworkInterfaceStats where
  rxBytes : Int
  txBytes : Int
  rxPackets : Int
  txPackets : Int
  rxErrors : Int
  txErrors : Int
  rxDropped : Int
  txDropped : Int
  rxFifo : Int
  txFifo : Int
  rxFrame : Int
  txCarrier : Int
  collisions : Int
deriving DecidableEq

structure NetworkInterfaceTelemetry where
  name : String
  address : String
  carrier : Bool
  carrierChanges : Int
  operstate : String
  mtu : Int
  stats : NetworkInterfaceStats
  type : String
deriving DecidableEq

structure WifiTelemetry where
  signalStrength : Option Int
  linkQuality : Option Int
  noiseLevel : Option Int
  ssid : Option String
  frequency : Option Int
  bitrate : Option Int
deriving DecidableEq

structure NetworkTelemetry where
  interfaces : List NetworkInterfaceTelemetry
  wifi : Option WifiTelemetry
  totalRxBytes : Int
  totalTxBytes : Int
deriving DecidableEq

structure GpuFrequencyTelemetry where
  currentFreq : Int
  targetFreq : Int
  minFreq : Int
  maxFreq : Int
  governor : String
  availableFrequencies : List Int
  pollingIntervalMs : Int
deriving DecidableEq

structure GpuTransitionStats where
  fromFreq : Int
  toFreq : Int
  count : Int
deriving DecidableEq

structure GpuTelemetry where
  frequency : GpuFrequencyTelemetry
  transitionStats : Option (List GpuTransitionStats)
  totalTransitions : Option Int
deriving DecidableEq

structure BlockDeviceStats where
  readsCompleted : Int
  readsMerged : Int
  sectorsRead : Int
  readTimeMs : Int
  writesCompleted : Int
  writesMerged : Int
  sectorsWritten : Int
  writeTimeMs : Int
  iosInProgress : Int
  ioTimeMs : Int
  weightedIoTimeMs : Int
deriving DecidableEq

/-- `BlockDeviceTelemetry` is recursive (`partitions?: BlockDeviceTelemetry[]`),
so it is an inductive type with explicit projections. -/
inductive BlockDeviceTelemetry where
  | mk
    (name : String)
    (type : String)
    (size : Int)
    (stats : BlockDeviceStats)
    (bytesRead : Int)
    (bytesWritten : Int)
    (partitions : Option (List BlockDeviceTelemetry))

def BlockDeviceTelemetry.name : BlockDeviceTelemetry → String
  | .mk n _ _ _ _ _ _ => n

def BlockDeviceTelemetry.type : BlockDeviceTelemetry → String
  | .mk _ t _ _ _ _ _ => t

def BlockDeviceTelemetry.size : BlockDeviceTelemetry → Int
  | .mk _ _ s _ _ _ _ => s

def BlockDeviceTelemetry.stats : BlockDeviceTelemetry → BlockDeviceStats
  | .mk _ _ _ st _ _ _ => st

def BlockDeviceTelemetry.bytesRead : BlockDeviceTelemetry → Int
  | .mk _ _ _ _ br _ _ => br

def BlockDeviceTelemetry.bytesWritten : BlockDeviceTelemetry → Int
  | .mk _ _ _ _ _ bw _ => bw

def BlockDeviceTelemetry.partitions : BlockDeviceTelemetry → Option (List BlockDeviceTelemetry)
  | .mk _ _ _ _ _ _ p => p

structure StorageTelemetry where
  devices : List BlockDeviceTelemetry
  totalBytesRead : Int
  totalBytesWritten : Int
  totalIoTimeMs : Int

structure ProcessTelemetry where
  pid : Int
  name : String
  state : String
  ppid : Int
  pgrp : Int
  session : Int
  userTimeMs : Int
  systemTimeMs : Int
  totalCpuTimeMs : Int
  cpuPercent : Option Int
  vsize : Int
  rss : Int
  rssLimit : Int
  memoryPercent : Int
  numThreads : Int
  nice : Int
  priority : Int
  startTime : Int
  cmdline : String
  oomScore : Int
  readBytes : Option Int
  writeBytes : Option Int
deriving DecidableEq

structure ProcessSummary where
  total : Int
  running : Int
  sleeping : Int
  zombie : Int
  stopped : Int
deriving DecidableEq

structure ProcessesTelemetry where
  processes : List ProcessTelemetry
  summary : ProcessSummary
  totalCpuTime : Int
  contextSwitches : Int
  processesCreated : Int
deriving DecidableEq

structure Vector3D where
  x : Int
  y : Int
  z : Int
deriving DecidableEq

structure AmbientLightTelemetry where
  illuminanceRaw : Int
  illuminanceScale : Int
  illuminanceLux : Int
deriving DecidableEq

structure ProximityTelemetry where
  proximityRaw : Int
  proximityScale : Int
  nearLevel : Int
  isNear : Bool
deriving DecidableEq

structure AccelerometerTelemetry where
  raw : Vector3D
  scale : Int
  acceleration : Vector3D
  magnitude : Int
deriving DecidableEq

structure GyroscopeTelemetry where
  raw : Vector3D
  scale : Int
  angularVelocity : Vector3D
  magnitude : Int
deriving DecidableEq

structure MagnetometerTelemetry where
  raw : Vector3D
  scale : Int
  magneticField : Vector3D
  heading : Int
deriving DecidableEq

structure AdcChannelTelemetry where
  channel : Int
  raw : Int
  scale : Int
  voltage : Int
deriving DecidableEq

structure SensorsTelemetry where
  ambientLight : AmbientLightTelemetry
  proximity : ProximityTelemetry
  accelerometer : AccelerometerTelemetry
  gyroscope : GyroscopeTelemetry
  magnetometer : MagnetometerTelemetry
  adcChannels : List AdcChannelTelemetry
deriving DecidableEq

structure DisplayTelemetry where
  brightness : Int
  maxBrightness : Int
  brightnessPercent : Int
  power : Bool
deriving DecidableEq

structure LedTelemetry where
  name : String
  brightness : Int
  maxBrightness : Int
  trigger : String
deriving DecidableEq

structure RfKillTelemetry where
  type : String
  name : String
  softBlocked : Bool
  hardBlocked : Bool
deriving DecidableEq

structure SystemTelemetry where
  display : DisplayTelemetry
  leds : List LedTelemetry
  rfkill : List RfKillTelemetry
  wakeupCount : Int
deriving DecidableEq

structure HighFrequencyTelemetry where
  power : PowerTelemetry
  thermal : ThermalTelemetry
  cpu : HighCpuTelemetry
  memory : MemoryTelemetry
  network : NetworkTelemetry
deriving DecidableEq

/-- The `Pick<CpuTelemetry, 'frequencyStats' | 'idleStats'>` shape. -/
structure CpuStatsTelemetry where
  frequencyStats : Option (List CpuFrequencyStatsT)
  idleStats : Option (List CpuIdleTelemetry)
deriving DecidableEq

structure MediumFrequencyTelemetry where
  cpuStats : CpuStatsTelemetry
  gpu : GpuTelemetry
  storage : StorageTelemetry
  processes : ProcessesTelemetry

structure LowFrequencyTelemetry where
  sensors : SensorsTelemetry
  system : SystemTelemetry
deriving DecidableEq

/-- The `data` field of a payload is one of the three tier-shaped objects;
which one it actually is, is independent of the `frequency` tag (TypeScript
casts it blindly, see `processTelemetryPayload`). -/
inductive TelemetryData where
  | high : HighFrequencyTelemetry → TelemetryData
  | medium : MediumFrequencyTelemetry → TelemetryData
  | low : LowFrequencyTelemetry → TelemetryData

/-- A payload after JSON deserialisation and a successful pass through the
route validation: `frequency` is one of the three enum values and
`timestamp` has been handed to `new Date(...)` (modelled as the parsed
millisecond value).  `timestampMs` is `Option` because request JSON may omit
it (validation never looks at it). -/
structure TelemetryPayload where
  deviceId : String
  timestamp : Int
  timestampMs : Option Int
  frequency : TelemetryFrequency
  data : TelemetryData

/-! ## Database rows (src/lib/server/db/schema.ts), restricted to the columns
the service writes.  `createdAt`/`lastSeenAt` columns whose value comes from
the database `defaultNow()` are modelled as the clock value at the call. -/

structure DeviceRow where
  id : Nat
  deviceId : String
  name : Option String
  createdAt : Int
  lastSeenAt : Int
deriving DecidableEq

structure ReadingRow where
  id : Nat
  deviceId : Nat
  timestamp : Int
  timestampMs : Int
  frequency : TelemetryFrequency
deriving DecidableEq

structure BatteryRow where
  readingId : Nat
  capacity : Int
  status : String
  voltage : Int
  current : Int
  temperature : Int
  chargeFull : Int
  chargeFullDesign : Int
  health : String
  present : Bool
  chargeType : String
  energyFullDesign : Int
deriving DecidableEq

structure UsbInputRow where
  readingId : Nat
  present : Bool
  health : String
  inputCurrentLimit : Int
  inputVoltageLimit : Int
deriving DecidableEq

structure UsbPdRow where
  readingId : Nat
  online : Bool
  voltage : Int
  voltageMin : Int
  voltageMax : Int
  current : Int
  currentMax : Int
  usbType : String
deriving DecidableEq

structure TypeCPortRow where
  readingId : Nat
  dataRole : String
  powerRole : String
  orientation : String
  powerOperationMode : String
  vconnSource : Bool
deriving DecidableEq

structure ThermalZoneRow where
  readingId : Nat
  zone : Int
  type : String
  temperature : Int
  tripPoints : Option (List TripPoint)
deriving DecidableEq

structure CoolingDeviceRow where
  readingId : Nat
  deviceIndex : Int
  type : String
  currentState : Int
  maxState : Int
deriving DecidableEq

structure ThermalSummaryRow where
  readingId : Nat
  batteryTemp : Int
  cpuTemp : Int
  gpuTemp : Int
deriving DecidableEq

structure CpuFrequencyRow where
  readingId : Nat
  cpu : Int
  currentFreq : Int
  minFreq : Int
  maxFreq : Int
  hardwareMinFreq : Int
  hardwareMaxFreq : Int
  governor : String
deriving DecidableEq

structure CpuTimeRow where
  readingId : Nat
  cpu : String
  user : Int
  nice : Int
  system : Int
  idle : Int
  iowait : Int
  irq : Int
  softirq : Int
  steal : Int
deriving DecidableEq

structure CpuLoadRow where
  readingId : Nat
  load1 : Int
  load5 : Int
  load15 : Int
  runningProcesses : Int
  totalProcesses : Int
  uptime : Int
  idleTime : Int
  onlineCpus : List Int
  offlineCpus : List Int
deriving DecidableEq

structure MemoryRow where
  readingId : Nat
  total : Int
  free : Int
  available : Int
  buffers : Int
  cached : Int
  swapTotal : Int
  swapFree : Int
  swapUsed : Int
  active : Int
  inactive : Int
  activeAnon : Int
  inactiveAnon : Int
  activeFile : Int
  inactiveFile : Int
  dirty : Int
  writeback : Int
  anonPages : Int
  mapped : Int
  shmem : Int
  slab : Int
  sReclaimable : Int
  sUnreclaim : Int
  usedPercent : Int
  swapUsedPercent : Int
deriving DecidableEq

structure NetworkInterfaceRow where
  readingId : Nat
  name : String
  address : String
  carrier : Bool
  carrierChanges : Int
  operstate : String
  mtu : Int
  type : String
  rxBytes : Int
  txBytes : Int
  rxPackets : Int
  txPackets : Int
  rxErrors : Int
  txErrors : Int
  rxDropped : Int
  txDropped : Int
  rxFifo : Int
  txFifo : Int
  rxFrame : Int
  txCarrier : Int
  collisions : Int
deriving DecidableEq

structure NetworkSummaryRow where
  readingId : Nat
  totalRxBytes : Int
  totalTxBytes : Int
  wifiSignalStrength : Option Int
  wifiLinkQuality : Option Int
  wifiNoiseLevel : Option Int
  wifiSsid : Option String
  wifiFrequency : Option Int
  wifiBitrate : Option Int
deriving DecidableEq

structure CpuFrequencyStatsRow where
  readingId : Nat
  cpu : Int
  timeInState : List CpuTimeInState
  totalTransitions : Int
deriving DecidableEq

structure CpuIdleStatsRow where
  readingId : Nat
  cpu : Int
  states : List CpuIdleStateTelemetry
deriving DecidableEq

structure GpuRow where
  readingId : Nat
  currentFreq : Int
  targetFreq : Int
  minFreq : Int
  maxFreq : Int
  governor : String
  availableFrequencies : List Int
  pollingIntervalMs : Int
  transitionStats : Option (List GpuTransitionStats)
  totalTransitions : Option Int
deriving DecidableEq

structure StorageDeviceRow where
  id : Nat
  readingId : Nat
  parentDeviceId : Option Nat
  name : String
  type : String
  size : Int
  bytesRead : Int
  bytesWritten : Int
  readsCompleted : Int
  readsMerged : Int
  sectorsRead : Int
  readTimeMs : Int
  writesCompleted : Int
  writesMerged : Int
  sectorsWritten : Int
  writeTimeMs : Int
  iosInProgress : Int
  ioTimeMs : Int
  weightedIoTimeMs : Int
deriving DecidableEq

structure StorageSummaryRow where
  readingId : Nat
  totalBytesRead : Int
  totalBytesWritten : Int
  totalIoTimeMs : Int
deriving DecidableEq

structure ProcessRow where
  readingId : Nat
  pid : Int
  name : String
  state : String
  ppid : Int
  pgrp : Int
  session : Int
  userTimeMs : Int
  systemTimeMs : Int
  totalCpuTimeMs : Int
  cpuPercent : Option Int
  vsize : Int
  rss : Int
  rssLimit : Int
  memoryPercent : Int
  numThreads : Int
  nice : Int
  priority : Int
  startTime : Int
  cmdline : String
  oomScore : Int
  readBytes : Option Int
  writeBytes : Option Int
deriving DecidableEq

structure ProcessSummaryRow where
  readingId : Nat
  total : Int
  running : Int
  sleeping : Int
  zombie : Int
  stopped : Int
  totalCpuTime : Int
  contextSwitches : Int
  processesCreated : Int
deriving DecidableEq

structure SensorRow where
  readingId : Nat
  illuminanceRaw : Int
  illuminanceScale : Int
  illuminanceLux : Int
  proximityRaw : Int
  proximityScale : Int
  nearLevel : Int
  isNear : Bool
  accelRawX : Int
  accelRawY : Int
  accelRawZ : Int
  accelScale : Int
  accelX : Int
  accelY : Int
  accelZ : Int
  accelMagnitude : Int
  gyroRawX : Int
  gyroRawY : Int
  gyroRawZ : Int
  gyroScale : Int
  gyroX : Int
  gyroY : Int
  gyroZ : Int
  gyroMagnitude : Int
  magRawX : Int
  magRawY : Int
  magRawZ : Int
  magScale : Int
  magX : Int
  magY : Int
  magZ : Int
  magHeading : Int
  adcChannels : List AdcChannelTelemetry
deriving DecidableEq

structure DisplayRow where
  readingId : Nat
  brightness : Int
  maxBrightness : Int
  brightnessPercent : Int
  power : Bool
deriving DecidableEq

structure LedRow where
  readingId : Nat
  name : String
  brightness : Int
  maxBrightness : Int
  trigger : String
deriving DecidableEq

structure RfKillRow where
  readingId : Nat
  type : String
  name : String
  softBlocked : Bool
  hardBlocked : Bool
deriving DecidableEq

structure SystemWakeupRow where
  readingId : Nat
  wakeupCount : Int
deriving DecidableEq

/-- The whole relational store: one list per table, rows in insertion order,
plus the next value of each serial-id sequence the code observes. -/
structure Db where
  devices : List DeviceRow
  nextDeviceId : Nat
  readings : List ReadingRow
  nextReadingId : Nat
  batteryReadings : List BatteryRow
  usbInputReadings : List UsbInputRow
  usbPdReadings : List UsbPdRow
  typeCPortReadings : List TypeCPortRow
  thermalZoneReadings : List ThermalZoneRow
  coolingDeviceReadings : List CoolingDeviceRow
  thermalSummaryReadings : List ThermalSummaryRow
  cpuFrequencyReadings : List CpuFrequencyRow
  cpuTimeReadings : List CpuTimeRow
  cpuLoadReadings : List CpuLoadRow
  memoryReadings : List MemoryRow
  networkInterfaceReadings : List NetworkInterfaceRow
  networkSummaryReadings : List NetworkSummaryRow
  cpuFrequencyStats : List CpuFrequencyStatsRow
  cpuIdleStats : List CpuIdleStatsRow
  gpuReadings : List GpuRow
  storageDeviceReadings : List StorageDeviceRow
  nextStorageDeviceId : Nat
  storageSummaryReadings : List StorageSummaryRow
  processReadings : List ProcessRow
  processSummaryReadings : List ProcessSummaryRow
  sensorReadings : List SensorRow
  displayReadings : List DisplayRow
  ledReadings : List LedRow
  rfKillReadings : List RfKillRow
  systemWakeupReadings : List SystemWakeupRow

/-- A database with no rows; serial sequences start at 1 (PostgreSQL default). -/
def emptyDb : Db where
  devices := []
  nextDeviceId := 1
  readings := []
  nextReadingId := 1
  batteryReadings := []
  usbInputReadings := []
  usbPdReadings := []
  typeCPortReadings := []
  thermalZoneReadings := []
  coolingDeviceReadings := []
  thermalSummaryReadings := []
  cpuFrequencyReadings := []
  cpuTimeReadings := []
  cpuLoadReadings := []
  memoryReadings := []
  networkInterfaceReadings := []
  networkSummaryReadings := []
  cpuFrequencyStats := []
  cpuIdleStats := []
  gpuReadings := []
  storageDeviceReadings := []
  nextStorageDeviceId := 1
  storageSummaryReadings := []
  processReadings := []
  processSummaryReadings := []
  sensorReadings := []
  displayReadings := []
  ledReadings := []
  rfKillReadings := []
  systemWakeupReadings := []

/-! ## Telemetry service (src/lib/server/telemetry/service.ts) -/

structure TelemetryInsertResult where
  readingId : Nat
  deviceId : Nat
deriving DecidableEq

/-- `getOrCreateDevice` (service.ts lines 25-47).  `now` models the value of
`new Date()` at the call.  Returns the device's internal id and the updated
store. -/
def getOrCreateDevice (now : Int) (deviceId : String) (db : Db) : Nat × Db :=
  match db.devices.find? (fun d => d.deviceId == deviceId) with
  | some existing =>
      (existing.id,
        { db with
            devices := db.devices.map (fun d =>
              if d.id == existing.id then { d with lastSeenAt := now } else d) })
  | none =>
      (db.nextDeviceId,
        { db with
            devices := db.devices ++
              [{ id := db.nextDeviceId, deviceId := deviceId, name := some deviceId,
                 createdAt := now, lastSeenAt := now }],
            nextDeviceId := db.nextDeviceId + 1 })

/-- `createReading` (service.ts lines 52-69).  The `timestamp_ms` column is
`bigint(...).notNull()` with no default (schema.ts line 99), so inserting a
payload that omits `timestampMs` violates the not-null constraint: the
insert throws and no reading row is written, modelled by `none`. -/
def createReading (deviceDbId : Nat) (timestamp : Int) (timestampMs : Option Int)
    (frequency : TelemetryFrequency) (db : Db) : Option (Nat × Db) :=
  match timestampMs with
  | none => none
  | some ms =>
      some (db.nextReadingId,
        { db with
            readings := db.readings ++
              [{ id := db.nextReadingId, deviceId := deviceDbId, timestamp := timestamp,
                 timestampMs := ms, frequency := frequency }],
            nextReadingId := db.nextReadingId + 1 })

/-- `insertHighFrequencyData` (service.ts lines 74-272): one `Promise.all`
block of independent inserts, modelled as appending all produced rows. -/
def insertHighFrequencyData (readingId : Nat) (data : HighFrequencyTelemetry) (db : Db) : Db :=
  let power := data.power
  let thermal := data.thermal
  let cpu := data.cpu
  let memory := data.memory
  let network := data.network
  { db with
      batteryReadings := db.batteryReadings ++
        [{ readingId := readingId,
           capacity := power.battery.capacity,
           status := power.battery.status,
           voltage := power.battery.voltage,
           current := power.battery.current,
           temperature := power.battery.temperature,
           chargeFull := power.battery.chargeFull,
           chargeFullDesign := power.battery.chargeFullDesign,
           health := power.battery.health,
           present := power.battery.present,
           chargeType := power.battery.chargeType,
           energyFullDesign := power.battery.energyFullDesign }],
      usbInputReadings := db.usbInputReadings ++
        [{ readingId := readingId,
           present := power.usbInput.present,
           health := power.usbInput.health,
           inputCurrentLimit := power.usbInput.inputCurrentLimit,
           inputVoltageLimit := power.usbInput.inputVoltageLimit }],
      usbPdReadings := db.usbPdReadings ++
        [{ readingId := readingId,
           online := power.usbCPd.online,
           voltage := power.usbCPd.voltage,
           voltageMin := power.usbCPd.voltageMin,
           voltageMax := power.usbCPd.voltageMax,
           current := power.usbCPd.current,
           currentMax := power.usbCPd.currentMax,
           usbType := power.usbCPd.usbType }],
      typeCPortReadings := db.typeCPortReadings ++
        [{ readingId := readingId,
           dataRole := power.typeCPort.dataRole,
           powerRole := power.typeCPort.powerRole,
           orientation := power.typeCPort.orientation,
           powerOperationMode := power.typeCPort.powerOperationMode,
           vconnSource := power.typeCPort.vconnSource }],
      thermalZoneReadings := db.thermalZoneReadings ++
        thermal.zones.map (fun zone =>
          { readingId := readingId,
            zone := zone.zone,
            type := zone.type,
            temperature := zone.temperature,
            tripPoints := zone.tripPoints }),
      coolingDeviceReadings := db.coolingDeviceReadings ++
        thermal.coolingDevices.map (fun device =>
          { readingId := readingId,
            deviceIndex := device.index,
            type := device.type,
            currentState := device.currentState,
            maxState := device.maxState }),
      thermalSummaryReadings := db.thermalSummaryReadings ++
        [{ readingId := readingId,
           batteryTemp := thermal.batteryTemp,
           cpuTemp := thermal.cpuTemp,
           gpuTemp := thermal.gpuTemp }],
      cpuFrequencyReadings := db.cpuFrequencyReadings ++
        cpu.frequencies.map (fun freq =>
          { readingId := readingId,
            cpu := freq.cpu,
            currentFreq := freq.currentFreq,
            minFreq := freq.minFreq,
            maxFreq := freq.maxFreq,
            hardwareMinFreq := freq.hardwareMinFreq,
            hardwareMaxFreq := freq.hardwareMaxFreq,
            governor := freq.governor }),
      cpuTimeReadings := db.cpuTimeReadings ++
        cpu.cpuTimes.map (fun time =>
          { readingId := readingId,
            cpu := time.cpu,
            user := time.user,
            nice := time.nice,
            system := time.system,
            idle := time.idle,
            iowait := time.iowait,
            irq := time.irq,
            softirq := time.softirq,
            steal := time.steal }),
      cpuLoadReadings := db.cpuLoadReadings ++
        [{ readingId := readingId,
           load1 := cpu.loadAverage.load1,
           load5 := cpu.loadAverage.load5,
           load15 := cpu.loadAverage.load15,
           runningProcesses := cpu.loadAverage.runningProcesses,
           totalProcesses := cpu.loadAverage.totalProcesses,
           uptime := cpu.uptime,
           idleTime := cpu.idleTime,
           onlineCpus := cpu.onlineCpus,
           offlineCpus := cpu.offlineCpus }],
      memoryReadings := db.memoryReadings ++
        [{ readingId := readingId,
           total := memory.total,
           free := memory.free,
           available := memory.available,
           buffers := memory.buffers,
           cached := memory.cached,
           swapTotal := memory.swapTotal,
           swapFree := memory.swapFree,
           swapUsed := memory.swapUsed,
           active := memory.active,
           inactive := memory.inactive,
           activeAnon := memory.activeAnon,
           inactiveAnon := memory.inactiveAnon,
           activeFile := memory.activeFile,
           inactiveFile := memory.inactiveFile,
           dirty := memory.dirty,
           writeback := memory.writeback,
           anonPages := memory.anonPages,
           mapped := memory.mapped,
           shmem := memory.shmem,
           slab := memory.slab,
           sReclaimable := memory.sReclaimable,
           sUnreclaim := memory.sUnreclaim,
           usedPercent := memory.usedPercent,
           swapUsedPercent := memory.swapUsedPercent }],
      networkInterfaceReadings := db.networkInterfaceReadings ++
        network.interfaces.map (fun iface =>
          { readingId := readingId,
            name := iface.name,
            address := iface.address,
            carrier := iface.carrier,
            carrierChanges := iface.carrierChanges,
            operstate := iface.operstate,
            mtu := iface.mtu,
            type := iface.type,
            rxBytes := iface.stats.rxBytes,
            txBytes := iface.stats.txBytes,
            rxPackets := iface.stats.rxPackets,
            txPackets := iface.stats.txPackets,
            rxErrors := iface.stats.rxErrors,
            txErrors := iface.stats.txErrors,
            rxDropped := iface.stats.rxDropped,
            txDropped := iface.stats.txDropped,
            rxFifo := iface.stats.rxFifo,
            txFifo := iface.stats.txFifo,
            rxFrame := iface.stats.rxFrame,
            txCarrier := iface.stats.txCarrier,
            collisions := iface.stats.collisions }),
      networkSummaryReadings := db.networkSummaryReadings ++
        [{ readingId := readingId,
           totalRxBytes := network.totalRxBytes,
           totalTxBytes := network.totalTxBytes,
           wifiSignalStrength := (network.wifi.map (·.signalStrength)).join,
           wifiLinkQuality := (network.wifi.map (·.linkQuality)).join,
           wifiNoiseLevel := (network.wifi.map (·.noiseLevel)).join,
           wifiSsid := (network.wifi.map (·.ssid)).join,
           wifiFrequency := (network.wifi.map (·.frequency)).join,
           wifiBitrate := (network.wifi.map (·.bitrate)).join }] }

/-- One `storage_device_readings` row built from a payload node
(the `values({...})` call in `insertStorageDevice`, service.ts lines 282-303). -/
def mkStorageDeviceRow (readingId : Nat) (rowId : Nat) (parentDeviceId : Option Nat)
    (device : BlockDeviceTelemetry) : StorageDeviceRow where
  id := rowId
  readingId := readingId
  parentDeviceId := parentDeviceId
  name := device.name
  type := device.type
  size := device.size
  bytesRead := device.bytesRead
  bytesWritten := device.bytesWritten
  readsCompleted := device.stats.readsCompleted
  readsMerged := device.stats.readsMerged
  sectorsRead := device.stats.sectorsRead
  readTimeMs := device.stats.readTimeMs
  writesCompleted := device.stats.writesCompleted
  writesMerged := device.stats.writesMerged
  sectorsWritten := device.stats.sectorsWritten
  writeTimeMs := device.stats.writeTimeMs
  iosInProgress := device.stats.iosInProgress
  ioTimeMs := device.stats.ioTimeMs
  weightedIoTimeMs := device.stats.weightedIoTimeMs

mutual

/-- `insertStorageDevice` (service.ts lines 277-312): insert the node's row,
then recurse into its listed partitions with the new row's id as
`parentDeviceId`. -/
def insertStorageDevice (readingId : Nat) (device : BlockDeviceTelemetry)
    (parentDeviceId : Option Nat) (db : Db) : Db :=
  match device with
  | .mk name ty size stats bytesRead bytesWritten partitions =>
    let rowId := db.nextStorageDeviceId
    let db1 :=
      { db with
          storageDeviceReadings := db.storageDeviceReadings ++
            [mkStorageDeviceRow readingId rowId parentDeviceId
              (.mk name ty size stats bytesRead bytesWritten partitions)],
          nextStorageDeviceId := rowId + 1 }
    match partitions with
    | none => db1
    | some parts => insertStorageDeviceList readingId parts (some rowId) db1

/-- The `for (const partition of device.partitions)` loop in
`insertStorageDevice`. -/
def insertStorageDeviceList (readingId : Nat) (devices : List BlockDeviceTelemetry)
    (parentDeviceId : Option Nat) (db : Db) : Db :=
  match devices with
  | [] => db
  | d :: rest =>
      insertStorageDeviceList readingId rest parentDeviceId
        (insertStorageDevice readingId d parentDeviceId db)

end

/-- `insertMediumFrequencyData` (service.ts lines 317-419): one `Promise.all`
block, then the sequential recursive storage-device inserts. -/
def insertMediumFrequencyData (readingId : Nat) (data : MediumFrequencyTelemetry) (db : Db) : Db :=
  let cpuStats := data.cpuStats
  let gpu := data.gpu
  let storage := data.storage
  let processes := data.processes
  let db1 :=
    { db with
        cpuFrequencyStats := db.cpuFrequencyStats ++
          ((cpuStats.frequencyStats.map (fun stats => stats.map (fun stat =>
            ({ readingId := readingId,
               cpu := stat.cpu,
               timeInState := stat.timeInState,
               totalTransitions := stat.totalTransitions } : CpuFrequencyStatsRow)))).getD []),
        cpuIdleStats := db.cpuIdleStats ++
          ((cpuStats.idleStats.map (fun stats => stats.map (fun stat =>
            ({ readingId := readingId,
               cpu := stat.cpu,
               states := stat.states } : CpuIdleStatsRow)))).getD []),
        gpuReadings := db.gpuReadings ++
          [{ readingId := readingId,
             currentFreq := gpu.frequency.currentFreq,
             targetFreq := gpu.frequency.targetFreq,
             minFreq := gpu.frequency.minFreq,
             maxFreq := gpu.frequency.maxFreq,
             governor := gpu.frequency.governor,
             availableFrequencies := gpu.frequency.availableFrequencies,
             pollingIntervalMs := gpu.frequency.pollingIntervalMs,
             transitionStats := gpu.transitionStats,
             totalTransitions := gpu.totalTransitions }],
        storageSummaryReadings := db.storageSummaryReadings ++
          [{ readingId := readingId,
             totalBytesRead := storage.totalBytesRead,
             totalBytesWritten := storage.totalBytesWritten,
             totalIoTimeMs := storage.totalIoTimeMs }],
        processSummaryReadings := db.processSummaryReadings ++
          [{ readingId := readingId,
             total := processes.summary.total,
             running := processes.summary.running,
             sleeping := processes.summary.sleeping,
             zombie := processes.summary.zombie,
             stopped := processes.summary.stopped,
             totalCpuTime := processes.totalCpuTime,
             contextSwitches := processes.contextSwitches,
             processesCreated := processes.processesCreated }],
        processReadings := db.processReadings ++
          processes.processes.map (fun proc =>
            { readingId := readingId,
              pid := proc.pid,
              name := proc.name,
              state := proc.state,
              ppid := proc.ppid,
              pgrp := proc.pgrp,
              session := proc.session,
              userTimeMs := proc.userTimeMs,
              systemTimeMs := proc.systemTimeMs,
              totalCpuTimeMs := proc.totalCpuTimeMs,
              cpuPercent := proc.cpuPercent,
              vsize := proc.vsize,
              rss := proc.rss,
              rssLimit := proc.rssLimit,
              memoryPercent := proc.memoryPercent,
              numThreads := proc.numThreads,
              nice := proc.nice,
              priority := proc.priority,
              startTime := proc.startTime,
              cmdline := proc.cmdline,
              oomScore := proc.oomScore,
              readBytes := proc.readBytes,
              writeBytes := proc.writeBytes }) }
  insertStorageDeviceList readingId storage.devices none db1

/-- `insertLowFrequencyData` (service.ts lines 424-508). -/
def insertLowFrequencyData (readingId : Nat) (data : LowFrequencyTelemetry) (db : Db) : Db :=
  let sensors := data.sensors
  let system := data.system
  { db with
      sensorReadings := db.sensorReadings ++
        [{ readingId := readingId,
           illuminanceRaw := sensors.ambientLight.illuminanceRaw,
           illuminanceScale := sensors.ambientLight.illuminanceScale,
           illuminanceLux := sensors.ambientLight.illuminanceLux,
           proximityRaw := sensors.proximity.proximityRaw,
           proximityScale := sensors.proximity.proximityScale,
           nearLevel := sensors.proximity.nearLevel,
           isNear := sensors.proximity.isNear,
           accelRawX := sensors.accelerometer.raw.x,
           accelRawY := sensors.accelerometer.raw.y,
           accelRawZ := sensors.accelerometer.raw.z,
           accelScale := sensors.accelerometer.scale,
           accelX := sensors.accelerometer.acceleration.x,
           accelY := sensors.accelerometer.acceleration.y,
           accelZ := sensors.accelerometer.acceleration.z,
           accelMagnitude := sensors.accelerometer.magnitude,
           gyroRawX := sensors.gyroscope.raw.x,
           gyroRawY := sensors.gyroscope.raw.y,
           gyroRawZ := sensors.gyroscope.raw.z,
           gyroScale := sensors.gyroscope.scale,
           gyroX := sensors.gyroscope.angularVelocity.x,
           gyroY := sensors.gyroscope.angularVelocity.y,
           gyroZ := sensors.gyroscope.angularVelocity.z,
           gyroMagnitude := sensors.gyroscope.magnitude,
           magRawX := sensors.magnetometer.raw.x,
           magRawY := sensors.magnetometer.raw.y,
           magRawZ := sensors.magnetometer.raw.z,
           magScale := sensors.magnetometer.scale,
           magX := sensors.magnetometer.magneticField.x,
           magY := sensors.magnetometer.magneticField.y,
           magZ := sensors.magnetometer.magneticField.z,
           magHeading := sensors.magnetometer.heading,
           adcChannels := sensors.adcChannels }],
      displayReadings := db.displayReadings ++
        [{ readingId := readingId,
           brightness := system.display.brightness,
           maxBrightness := system.display.maxBrightness,
           brightnessPercent := system.display.brightnessPercent,
           power := system.display.power }],
      systemWakeupReadings := db.systemWakeupReadings ++
        [{ readingId := readingId,
           wakeupCount := system.wakeupCount }],
      ledReadings := db.ledReadings ++
        system.leds.map (fun led =>
          { readingId := readingId,
            name := led.name,
            brightness := led.brightness,
            maxBrightness := led.maxBrightness,
            trigger := led.trigger }),
      rfKillReadings := db.rfKillReadings ++
        system.rfkill.map (fun rf =>
          { readingId := readingId,
            type := rf.type,
            name := rf.name,
            softBlocked := rf.softBlocked,
            hardBlocked := rf.hardBlocked }) }

/-- `processTelemetryPayload` (service.ts lines 513-539).  The `switch` on
`payload.frequency` casts `payload.data` blindly; when the data object does
not have the tier's shape, the tier insert dereferences missing fields and
throws.  A throw — from the reading insert's not-null violation on a missing
`timestampMs`, or from a shape mismatch — is modelled by returning `none`
for the result while keeping the already-committed writes (no transaction
in the source): the device write always persists, and the reading write
persists in the shape-mismatch case. -/
def processTelemetryPayload (now : Int) (payload : TelemetryPayload) (db : Db) :
    Option TelemetryInsertResult × Db :=
  let dev := getOrCreateDevice now payload.deviceId db
  match createReading dev.1 payload.timestamp payload.timestampMs
    payload.frequency dev.2 with
  | none => (none, dev.2)
  | some rd =>
      match payload.frequency, payload.data with
      | .high, .high data =>
          (some { readingId := rd.1, deviceId := dev.1 },
            insertHighFrequencyData rd.1 data rd.2)
      | .medium, .medium data =>
          (some { readingId := rd.1, deviceId := dev.1 },
            insertMediumFrequencyData rd.1 data rd.2)
      | .low, .low data =>
          (some { readingId := rd.1, deviceId := dev.1 },
            insertLowFrequencyData rd.1 data rd.2)
      | _, _ => (none, rd.2)

/-- `processTelemetryBatch` (service.ts lines 544-555): strictly sequential
`for` loop; a thrown payload (modelled `none`) aborts the rest of the batch. -/
def processTelemetryBatch (now : Int) (payloads : List TelemetryPayload) (db : Db) :
    Option (List TelemetryInsertResult) × Db :=
  match payloads with
  | [] => (some [], db)
  | p :: rest =>
      let out := processTelemetryPayload now p db
      match out.1 with
      | some r =>
          let outRest := processTelemetryBatch now rest out.2
          (outRest.1.map (fun rs => r :: rs), outRest.2)
      | none => (none, out.2)

/-! ## POST /api/telemetry and /api/telemetry/batch (route handlers)

The request body arrives as arbitrary JSON cast to `TelemetryPayload`;
validation uses JavaScript truthiness (`!payload.field`), so a field is
"present" exactly when it exists and, for the string fields, is non-empty.
A raw payload therefore carries `Option`s; `frequency` is still a plain
string at this point. -/

structure RawTelemetryPayload where
  deviceId : Option String
  timestamp : Option String
  timestampMs : Option Int
  frequency : Option String
  data : Option TelemetryData

/-- JavaScript truthiness of an optional string field (`undefined`, `null`
and `""` are falsy). -/
def truthyStr : Option String → Bool
  | none => false
  | some s => !(s == "")

/-- `!payload.deviceId || !payload.timestamp || !payload.frequency || !payload.data`. -/
def missingRequiredFields (p : RawTelemetryPayload) : Bool :=
  !(truthyStr p.deviceId && truthyStr p.timestamp && truthyStr p.frequency && p.data.isSome)

/-- `['high', 'medium', 'low'].includes(frequency)`, returning the parsed
enum value on success. -/
def parseFrequency : String → Option TelemetryFrequency
  | "high" => some .high
  | "medium" => some .medium
  | "low" => some .low
  | _ => none

/-- Convert a raw payload that passed validation into the typed payload the
service receives; `none` when a required field is absent (unreachable after
validation). -/
def toTelemetryPayload (parseDate : String → Int) (p : RawTelemetryPayload) :
    Option TelemetryPayload :=
  match p.deviceId, p.timestamp, p.frequency, p.data with
  | some did, some ts, some freqStr, some data =>
      (parseFrequency freqStr).map (fun freq =>
        { deviceId := did, timestamp := parseDate ts, timestampMs := p.timestampMs,
          frequency := freq, data := data })
  | _, _, _, _ => none

/-- The outcome of the single-payload validation stage (the two `if`s of the
POST /api/telemetry handler): `some message` means a 400 rejection. -/
def validateTelemetryRequest (p : RawTelemetryPayload) : Option String :=
  if missingRequiredFields p then
    some "Missing required fields: deviceId, timestamp, frequency, or data"
  else
    match p.frequency with
    | some freqStr =>
        if (parseFrequency freqStr).isNone then
          some ("Invalid frequency: " ++ freqStr ++ ". Must be high, medium, or low")
        else none
    | none => some "Missing required fields: deviceId, timestamp, frequency, or data"

structure TelemetryAck where
  received : Bool
  id : String
deriving DecidableEq

/-- Response of POST /api/telemetry: HTTP status plus the `ApiResponse` body
fields the claims talk about. -/
structure SingleResponse where
  status : Nat
  success : Bool
  error : Option String
  ack : Option TelemetryAck
deriving DecidableEq

/-- POST /api/telemetry (routes/api/telemetry/+server.ts): validate, then
`processTelemetryPayload`; an exception during processing surfaces as 500
(with whatever writes already committed kept). -/
def telemetryPOST (now : Int) (parseDate : String → Int) (raw : RawTelemetryPayload)
    (db : Db) : SingleResponse × Db :=
  match validateTelemetryRequest raw with
  | some msg => ({ status := 400, success := false, error := some msg, ack := none }, db)
  | none =>
      match toTelemetryPayload parseDate raw with
      | some payload =>
          let out := processTelemetryPayload now payload db
          match out.1 with
          | some result =>
              ({ status := 201, success := true, error := none,
                 ack := some { received := true, id := toString result.readingId } }, out.2)
          | none =>
              ({ status := 500, success := false, error := some "Internal server error",
                 ack := none }, out.2)
      | none =>
          ({ status := 500, success := false, error := some "Internal server error",
             ack := none }, db)

/-- Batch request body; `none` models a missing `payloads` field or one that
is not an array (both hit the same rejection branch). -/
structure RawBatchBody where
  payloads : Option (List RawTelemetryPayload)

/-- The per-element validation of the batch handler, producing the error
string for index `i`, or `none` if the element passes. -/
def batchElementError (i : Nat) (p : RawTelemetryPayload) : Option String :=
  if missingRequiredFields p then
    some ("Payload " ++ toString i ++ ": Missing required fields")
  else
    match p.frequency with
    | some freqStr =>
        if (parseFrequency freqStr).isNone then
          some ("Payload " ++ toString i ++ ": Invalid frequency " ++ freqStr)
        else none
    | none => some ("Payload " ++ toString i ++ ": Missing required fields")

/-- The `validationErrors` array accumulated by the batch handler's `for`
loop, in index order. -/
def batchValidationErrors (l : List RawTelemetryPayload) : List String :=
  l.enum.filterMap (fun ip => batchElementError ip.1 ip.2)

structure BatchAck where
  received : Nat
  failed : Nat
  ids : List String
  errors : List String
deriving DecidableEq

structure BatchResponse where
  status : Nat
  success : Bool
  error : Option String
  ack : Option BatchAck
deriving DecidableEq

/-- POST /api/telemetry/batch (routes/api/telemetry/batch/+server.ts). -/
def telemetryBatchPOST (now : Int) (parseDate : String → Int) (body : RawBatchBody)
    (db : Db) : BatchResponse × Db :=
  match body.payloads with
  | none =>
      ({ status := 400, success := false, error := some "Missing or invalid payloads array",
         ack := none }, db)
  | some l =>
      if l.length == 0 then
        ({ status := 400, success := false, error := some "Empty payloads array",
           ack := none }, db)
      else
        let validationErrors := batchValidationErrors l
        if validationErrors.length > 0 then
          ({ status := 400, success := false,
             error := some ("Validation errors: " ++ String.intercalate "; " validationErrors),
             ack := none }, db)
        else
          let out := processTelemetryBatch now (l.filterMap (toTelemetryPayload parseDate)) db
          match out.1 with
          | some results =>
              ({ status := 201, success := true, error := none,
                 ack := some { received := results.length, failed := 0,
                               ids := results.map (fun r => toString r.readingId),
                               errors := [] } }, out.2)
          | none =>
              ({ status := 500, success := false, error := some "Internal server error",
                 ack := none }, out.2)

/-! ## GET /api/health (routes/api/health/+server.ts)

Database connectivity is external: the outcome of the `SELECT 1` probe enters
the model as a boolean. -/

structure HealthStatus where
  status : String
  database : String
  uptime : Int
  version : String
deriving DecidableEq

structure HealthResponse where
  httpStatus : Nat
  success : Bool
  data : HealthStatus
deriving DecidableEq

/-- GET /api/health: the probe result only shapes the body; the HTTP status
is always 200. -/
def healthGET (probeOk : Bool) (uptimeSeconds : Int) : HealthResponse :=
  let dbStatus := if probeOk then "connected" else "disconnected"
  { httpStatus := 200,
    success := dbStatus == "connected",
    data :=
      { status := if dbStatus == "connected" then "healthy" else "unhealthy",
        database := dbStatus,
        uptime := uptimeSeconds,
        version := "1.0.0" } }

/-! ## GET /api/dashboard (routes/api/dashboard/+server.ts) -/

structure DashboardQuery where
  deviceId : Option String
  hours : Option Int
  limit : Option Nat

structure DeviceInfo where
  id : Nat
  deviceId : String
  name : Option String
  lastSeenAt : Int
deriving DecidableEq

structure BatteryTimeSeries where
  timestamp : Int
  capacity : Int
  voltage : Int
  current : Int
  temperature : Int
  status : String
  health : String
deriving DecidableEq

structure ThermalTimeSeries where
  timestamp : Int
  cpuTemp : Int
  gpuTemp : Int
  batteryTemp : Int
deriving DecidableEq

structure CpuLoadTimeSeries where
  timestamp : Int
  load1 : Int
  load5 : Int
  load15 : Int
  uptime : Int
deriving DecidableEq

structure MemoryTimeSeries where
  timestamp : Int
  usedPercent : Int
  swapUsedPercent : Int
  available : Int
  total : Int
deriving DecidableEq

structure TopProcess where
  pid : Int
  name : String
  cpuPercent : Option Int
  memoryPercent : Int
  state : String
  cmdline : String
deriving DecidableEq

structure SystemInfo where
  uptime : Int
  totalProcesses : Int
  runningProcesses : Int
  onlineCpus : List Int
  displayBrightness : Option Int
deriving DecidableEq

structure NetworkStats where
  totalRxBytes : Int
  totalTxBytes : Int
  wifiSignal : Option Int
  wifiSsid : Option String
deriving DecidableEq

structure GpuInfo where
  currentFreq : Int
  governor : String
  minFreq : Int
  maxFreq : Int
deriving DecidableEq

structure DashboardData where
  devices : List DeviceInfo
  selectedDevice : Option DeviceInfo
  battery : List BatteryTimeSeries
  thermal : List ThermalTimeSeries
  cpuLoad : List CpuLoadTimeSeries
  memory : List MemoryTimeSeries
  topProcesses : List TopProcess
  systemInfo : Option SystemInfo
  networkStats : Option NetworkStats
  gpuInfo : Option GpuInfo
deriving DecidableEq

def DeviceRow.toInfo (d : DeviceRow) : DeviceInfo :=
  { id := d.id, deviceId := d.deviceId, name := d.name, lastSeenAt := d.lastSeenAt }

/-- The empty-state body returned when no devices exist (dashboard handler
lines 107-123). -/
def emptyDashboardData : DashboardData :=
  { devices := [], selectedDevice := none, battery := [], thermal := [], cpuLoad := [],
    memory := [], topProcesses := [], systemInfo := none, networkStats := none,
    gpuInfo := none }

/-- The readings the dashboard considers: the selected device's readings with
`timestamp >= cutoff`, ordered by timestamp descending, first `limit` of
them (dashboard handler lines 133-140).  Note the filter has no upper time
bound. -/
def dashboardReadings (db : Db) (selectedId : Nat) (cutoff : Int) (limit : Nat) :
    List ReadingRow :=
  ((db.readings.filter (fun r => r.deviceId == selectedId && decide (cutoff ≤ r.timestamp))).mergeSort
    (fun a b => decide (b.timestamp ≤ a.timestamp))).take limit

/-- Join a child row to its parent reading (`with: { reading: true }`). -/
def findReading (db : Db) (readingId : Nat) : Option ReadingRow :=
  db.readings.find? (fun r => r.id == readingId)

/-- The battery series rows for the chosen reading ids, joined to their
reading's timestamp, in child-table order (pre-sort). -/
def batterySeriesData (db : Db) (readingIds : List Nat) : List BatteryTimeSeries :=
  (db.batteryReadings.filter (fun br => readingIds.contains br.readingId)).filterMap
    (fun br => (findReading db br.readingId).map (fun r =>
      { timestamp := r.timestamp, capacity := br.capacity, voltage := br.voltage,
        current := br.current, temperature := br.temperature, status := br.status,
        health := br.health }))

def thermalSeriesData (db : Db) (readingIds : List Nat) : List ThermalTimeSeries :=
  (db.thermalSummaryReadings.filter (fun tr => readingIds.contains tr.readingId)).filterMap
    (fun tr => (findReading db tr.readingId).map (fun r =>
      { timestamp := r.timestamp, cpuTemp := tr.cpuTemp, gpuTemp := tr.gpuTemp,
        batteryTemp := tr.batteryTemp }))

def cpuLoadSeriesData (db : Db) (readingIds : List Nat) : List CpuLoadTimeSeries :=
  (db.cpuLoadReadings.filter (fun cl => readingIds.contains cl.readingId)).filterMap
    (fun cl => (findReading db cl.readingId).map (fun r =>
      { timestamp := r.timestamp, load1 := cl.load1, load5 := cl.load5,
        load15 := cl.load15, uptime := cl.uptime }))

def memorySeriesData (db : Db) (readingIds : List Nat) : List MemoryTimeSeries :=
  (db.memoryReadings.filter (fun mr => readingIds.contains mr.readingId)).filterMap
    (fun mr => (findReading db mr.readingId).map (fun r =>
      { timestamp := r.timestamp, usedPercent := mr.usedPercent,
        swapUsedPercent := mr.swapUsedPercent, available := mr.available,
        total := mr.total }))

/-- `findFirst` of the device's readings with the given frequency, ordered by
timestamp descending. -/
def latestReadingWithFrequency (db : Db) (selectedId : Nat) (freq : TelemetryFrequency) :
    Option ReadingRow :=
  ((db.readings.filter (fun r => r.deviceId == selectedId && r.frequency == freq)).mergeSort
    (fun a b => decide (b.timestamp ≤ a.timestamp))).head?

/-- Top 15 processes of the latest medium reading, ranked by memory
percentage descending (dashboard handler lines 230-256). -/
def topProcessesData (db : Db) (latestMediumReading : Option ReadingRow) : List TopProcess :=
  match latestMediumReading with
  | some lm =>
      (((db.processReadings.filter (fun p => p.readingId == lm.id)).mergeSort
        (fun a b => decide (b.memoryPercent ≤ a.memoryPercent))).take 15).map
        (fun p => { pid := p.pid, name := p.name, cpuPercent := p.cpuPercent,
                    memoryPercent := p.memoryPercent, state := p.state,
                    cmdline := p.cmdline })
  | none => []

/-- System info block (dashboard handler lines 258-290).  Note the source
reads `cpuLoadData[0]` before the chronological sort, so the uptime comes
from the first fetched row, and the other fields from the row keyed by the
first (most recent) chosen reading. -/
def systemInfoData (db : Db) (selectedId : Nat) (readings : List ReadingRow)
    (cpuLoadData : List CpuLoadTimeSeries) : Option SystemInfo :=
  match cpuLoadData.head? with
  | some latestCpuLoad =>
      let latestCpuLoadReading := db.cpuLoadReadings.find?
        (fun cl => cl.readingId == ((readings.head?.map (fun r => r.id)).getD 0))
      let latestLowReading := latestReadingWithFrequency db selectedId .low
      let displayBrightness :=
        latestLowReading.bind (fun lr =>
          (db.displayReadings.find? (fun d => d.readingId == lr.id)).map
            (fun d => d.brightnessPercent))
      some { uptime := latestCpuLoad.uptime,
             totalProcesses := (latestCpuLoadReading.map (fun cl => cl.totalProcesses)).getD 0,
             runningProcesses := (latestCpuLoadReading.map (fun cl => cl.runningProcesses)).getD 0,
             onlineCpus := (latestCpuLoadReading.map (fun cl => cl.onlineCpus)).getD [],
             displayBrightness := displayBrightness }
  | none => none

/-- Network stats from the network-summary row of the first (most recent)
chosen reading (dashboard handler lines 292-306). -/
def networkStatsData (db : Db) (readings : List ReadingRow) : Option NetworkStats :=
  if (readings.map (fun r => r.id)).length > 0 then
    (db.networkSummaryReadings.find?
      (fun ns => ns.readingId == ((readings.head?.map (fun r => r.id)).getD 0))).map
      (fun ns => { totalRxBytes := ns.totalRxBytes, totalTxBytes := ns.totalTxBytes,
                   wifiSignal := ns.wifiSignalStrength, wifiSsid := ns.wifiSsid })
  else none

/-- GPU info from the latest medium reading (dashboard handler lines 308-322). -/
def gpuInfoData (db : Db) (latestMediumReading : Option ReadingRow) : Option GpuInfo :=
  latestMediumReading.bind (fun lm =>
    (db.gpuReadings.find? (fun g => g.readingId == lm.id)).map
      (fun g => { currentFreq := g.currentFreq, governor := g.governor,
                  minFreq := g.minFreq, maxFreq := g.maxFreq }))

/-- The device the dashboard works with: the query's device when its external
id matches, otherwise the first of the devices ordered by last-seen
descending (dashboard handler lines 126-128). -/
def selectDevice (sortedDevices : List DeviceRow) (d0 : DeviceRow)
    (deviceIdParam : Option String) : DeviceRow :=
  if truthyStr deviceIdParam then
    (sortedDevices.find? (fun d => some d.deviceId == deviceIdParam)).getD d0
  else d0

/-- Ascending chronological sort applied to the four series just before the
response is assembled (dashboard handler lines 324-328). -/
def sortSeries {α : Type} (timestamp : α → Int) (l : List α) : List α :=
  l.mergeSort (fun a b => decide (timestamp a ≤ timestamp b))

/-- GET /api/dashboard.  `now` models `Date.now()`. -/
def dashboardGET (now : Int) (q : DashboardQuery) (db : Db) : DashboardData :=
  let hours := q.hours.getD 24
  let limit := q.limit.getD 500
  let devices := db.devices.mergeSort (fun a b => decide (b.lastSeenAt ≤ a.lastSeenAt))
  match devices with
  | [] => emptyDashboardData
  | d0 :: rest =>
      let selectedDevice := selectDevice (d0 :: rest) d0 q.deviceId
      let cutoffTime := now - hours * 60 * 60 * 1000
      let readings := dashboardReadings db selectedDevice.id cutoffTime limit
      let readingIds := readings.map (fun r => r.id)
      let latestMediumReading := latestReadingWithFrequency db selectedDevice.id .medium
      let cpuLoadData := cpuLoadSeriesData db readingIds
      { devices := (d0 :: rest).map DeviceRow.toInfo,
        selectedDevice := some selectedDevice.toInfo,
        battery := sortSeries (fun p => p.timestamp) (batterySeriesData db readingIds),
        thermal := sortSeries (fun p => p.timestamp) (thermalSeriesData db readingIds),
        cpuLoad := sortSeries (fun p => p.timestamp) cpuLoadData,
        memory := sortSeries (fun p => p.timestamp) (memorySeriesData db readingIds),
        topProcesses := topProcessesData db latestMediumReading,
        systemInfo := systemInfoData db selectedDevice.id readings cpuLoadData,
        networkStats := networkStatsData db readings,
        gpuInfo := gpuInfoData db latestMediumReading }

/-! ## Concrete sample data used by the witnesses -/

def sampleHighData : HighFrequencyTelemetry where
  power :=
    { battery := { capacity := 80, status := "Discharging", voltage := 4, current := -1,
                   temperature := 30, chargeFull := 3000, chargeFullDesign := 3200,
                   health := "Good", present := true, chargeType := "Standard",
                   energyFullDesign := 11 },
      usbInput := { present := false, health := "Good", inputCurrentLimit := 0,
                    inputVoltageLimit := 0 },
      usbCPd := { online := false, voltage := 0, voltageMin := 0, voltageMax := 0,
                  current := 0, currentMax := 0, usbType := "C" },
      typeCPort := { dataRole := "device", powerRole := "sink", orientation := "normal",
                     powerOperationMode := "default", vconnSource := false } }
  thermal :=
    { zones := [{ zone := 0, type := "cpu-thermal", temperature := 45, tripPoints := none }],
      coolingDevices := [], batteryTemp := 30, cpuTemp := 45, gpuTemp := 40 }
  cpu :=
    { frequencies := [], cpuTimes := [],
      loadAverage :=
        { load1 := 1, load5 := 1, load15 := 1, runningProcesses := 2, totalProcesses := 100 },
      uptime := 1000, idleTime := 500, onlineCpus := [0, 1], offlineCpus := [] }
  memory :=
    { total := 1, free := 2, available := 3, buffers := 4, cached := 5, swapTotal := 6,
      swapFree := 7, swapUsed := 8, active := 9, inactive := 10, activeAnon := 11,
      inactiveAnon := 12, activeFile := 13, inactiveFile := 14, dirty := 15, writeback := 16,
      anonPages := 17, mapped := 18, shmem := 19, slab := 20, sReclaimable := 21,
      sUnreclaim := 22, usedPercent := 23, swapUsedPercent := 24 }
  network := { interfaces := [], wifi := none, totalRxBytes := 1, totalTxBytes := 2 }

def sampleBlockStats : BlockDeviceStats where
  readsCompleted := 1
  readsMerged := 2
  sectorsRead := 3
  readTimeMs := 4
  writesCompleted := 5
  writesMerged := 6
  sectorsWritten := 7
  writeTimeMs := 8
  iosInProgress := 9
  ioTimeMs := 10
  weightedIoTimeMs := 11

def samplePartitionOne : BlockDeviceTelemetry :=
  .mk "mmcblk2p1" "emmc" 100 sampleBlockStats 5 6 none

def samplePartitionTwo : BlockDeviceTelemetry :=
  .mk "mmcblk2p2" "emmc" 200 sampleBlockStats 7 8 none

def sampleRootDevice : BlockDeviceTelemetry :=
  .mk "mmcblk2" "emmc" 300 sampleBlockStats 9 10 (some [samplePartitionOne, samplePartitionTwo])

def sampleMediumData : MediumFrequencyTelemetry where
  cpuStats := { frequencyStats := none, idleStats := none }
  gpu :=
    { frequency :=
        { currentFreq := 1, targetFreq := 2, minFreq := 3, maxFreq := 4,
          governor := "simple_ondemand", availableFrequencies := [], pollingIntervalMs := 50 },
      transitionStats := none, totalTransitions := none }
  storage := { devices := [sampleRootDevice], totalBytesRead := 1, totalBytesWritten := 2,
               totalIoTimeMs := 3 }
  processes :=
    { processes := [],
      summary := { total := 1, running := 1, sleeping := 0, zombie := 0, stopped := 0 },
      totalCpuTime := 5, contextSwitches := 6, processesCreated := 7 }

def sampleLowData : LowFrequencyTelemetry where
  sensors :=
    { ambientLight := { illuminanceRaw := 1, illuminanceScale := 2, illuminanceLux := 3 },
      proximity := { proximityRaw := 1, proximityScale := 2, nearLevel := 3, isNear := false },
      accelerometer := { raw := { x := 1, y := 2, z := 3 }, scale := 4,
                         acceleration := { x := 5, y := 6, z := 7 }, magnitude := 8 },
      gyroscope := { raw := { x := 1, y := 2, z := 3 }, scale := 4,
                     angularVelocity := { x := 5, y := 6, z := 7 }, magnitude := 8 },
      magnetometer := { raw := { x := 1, y := 2, z := 3 }, scale := 4,
                        magneticField := { x := 5, y := 6, z := 7 }, heading := 8 },
      adcChannels := [] }
  system :=
    { display := { brightness := 10, maxBrightness := 100, brightnessPercent := 10,
                   power := true },
      leds := [{ name := "red", brightness := 1, maxBrightness := 255, trigger := "none" }],
      rfkill := [], wakeupCount := 3 }

def sampleHighPayload : TelemetryPayload where
  deviceId := "ppp-1"
  timestamp := 1000
  timestampMs := some 1000
  frequency := .high
  data := .high sampleHighData

def sampleMediumPayload : TelemetryPayload where
  deviceId := "ppp-1"
  timestamp := 2000
  timestampMs := some 2000
  frequency := .medium
  data := .medium sampleMediumData

def sampleLowPayload : TelemetryPayload where
  deviceId := "ppp-1"
  timestamp := 3000
  timestampMs := some 3000
  frequency := .low
  data := .low sampleLowData

/-! ## C8: health endpoint -/

/-- C8: GET /api/health returns HTTP 200 regardless of database
connectivity; a failed probe is reported as `database = "disconnected"`,
`status = "unhealthy"` in the body, a successful one as
`"connected"`/`"healthy"`; a failure is never surfaced as a non-200 status. -/
theorem health_always_200_and_probe_reported_in_body (probeOk : Bool) (uptime : Int) :
    (healthGET probeOk uptime).httpStatus = 200
    ∧ (healthGET false uptime).data.database = "disconnected"
    ∧ (healthGET false uptime).data.status = "unhealthy"
    ∧ (healthGET true uptime).data.database = "connected"
    ∧ (healthGET true uptime).data.status = "healthy" := by
  refine ⟨?_, rfl, rfl, rfl, rfl⟩
  cases probeOk <;> rfl

/-! ## C9: validation is independent of timestampMs -/

def rawValidSample : RawTelemetryPayload where
  deviceId := some "ppp-1"
  timestamp := some "2025-01-01T00:00:00Z"
  timestampMs := some 1000
  frequency := some "high"
  data := some (.high sampleHighData)

/-- C9: two payloads that agree on deviceId, timestamp, frequency and data
but differ arbitrarily in timestampMs get the identical validation outcome,
on both the single and the batch endpoint; in particular a payload lacking
timestampMs whose other required fields are present and whose frequency is
one of the three values passes the 400-validation stage. -/
theorem validation_independent_of_timestampMs (p : RawTelemetryPayload) (ms : Option Int)
    (i : Nat) :
    validateTelemetryRequest { p with timestampMs := ms } = validateTelemetryRequest p
    ∧ batchElementError i { p with timestampMs := ms } = batchElementError i p
    ∧ (truthyStr p.deviceId = true → truthyStr p.timestamp = true → p.data.isSome = true →
        (∃ f, p.frequency = some f ∧ (parseFrequency f).isSome) →
        validateTelemetryRequest { p with timestampMs := none } = none) := by
  refine ⟨rfl, rfl, ?_⟩
  rintro h1 h2 h3 ⟨f, hf, hpf⟩
  have hfne : (f == "") = false := by
    cases hcf : parseFrequency f with
    | none => rw [hcf] at hpf; simp at hpf
    | some v =>
        by_contra hc
        simp at hc
        subst hc
        simp [parseFrequency] at hcf
  have hfreq : truthyStr p.frequency = true := by
    rw [hf]; simp [truthyStr, hfne]
  have hmiss : missingRequiredFields { p with timestampMs := none } = false := by
    simp [missingRequiredFields, h1, h2, h3, hfreq]
  cases hcf : parseFrequency f with
  | none => rw [hcf] at hpf; simp at hpf
  | some v =>
      simp only [validateTelemetryRequest, hmiss, Bool.false_eq_true, if_false]
      show (match ({ p with timestampMs := none } : RawTelemetryPayload).frequency with
        | some freqStr =>
            if (parseFrequency freqStr).isNone then
              some ("Invalid frequency: " ++ freqStr ++ ". Must be high, medium, or low")
            else none
        | none => some "Missing required fields: deviceId, timestamp, frequency, or data")
        = none
      have : ({ p with timestampMs := none } : RawTelemetryPayload).frequency = some f := hf
      rw [this]
      simp [hcf]

/-- Witness for C9 at a concrete valid payload. -/
theorem validation_independent_of_timestampMs_witness :
    validateTelemetryRequest { rawValidSample with timestampMs := some 42 }
      = validateTelemetryRequest rawValidSample
    ∧ batchElementError 0 { rawValidSample with timestampMs := some 42 }
      = batchElementError 0 rawValidSample
    ∧ validateTelemetryRequest { rawValidSample with timestampMs := none } = none := by
  have h := validation_independent_of_timestampMs rawValidSample (some 42) 0
  exact ⟨h.1, h.2.1, h.2.2 rfl rfl rfl ⟨"high", rfl, rfl⟩⟩

/-! ## C4: invalid single requests are rejected with 400 and no write -/

/-- C4: a POST /api/telemetry request missing deviceId, timestamp, frequency
or data, or carrying a frequency outside high/medium/low, is answered with
status 400 and leaves the store untouched (no device, reading or child row
is created or updated). -/
theorem invalid_telemetry_request_rejected_without_write (now : Int)
    (parseDate : String → Int) (raw : RawTelemetryPayload) (db : Db)
    (h : raw.deviceId = none ∨ raw.timestamp = none ∨ raw.frequency = none
      ∨ raw.data = none ∨ ∃ f, raw.frequency = some f ∧ parseFrequency f = none) :
    (telemetryPOST now parseDate raw db).1.status = 400
    ∧ (telemetryPOST now parseDate raw db).2 = db := by
  have hv : ∃ m, validateTelemetryRequest raw = some m := by
    by_cases hm : missingRequiredFields raw = true
    · exact ⟨"Missing required fields: deviceId, timestamp, frequency, or data",
        by simp [validateTelemetryRequest, hm]⟩
    · rcases h with h | h | h | h | ⟨f, hf, hpf⟩
      · simp [missingRequiredFields, h, truthyStr] at hm
      · simp [missingRequiredFields, h, truthyStr] at hm
      · simp [missingRequiredFields, h, truthyStr] at hm
      · simp [missingRequiredFields, h, truthyStr] at hm
      · refine ⟨"Invalid frequency: " ++ f ++ ". Must be high, medium, or low", ?_⟩
        have hm' : missingRequiredFields raw = false := by
          cases hb : missingRequiredFields raw
          · rfl
          · exact absurd hb hm
        simp [validateTelemetryRequest, hm', hf, hpf]
  obtain ⟨m, hm⟩ := hv
  simp [telemetryPOST, hm]

/-- Witness for C4: a payload with frequency "ultra" is rejected and writes
nothing. -/
theorem invalid_telemetry_request_rejected_without_write_witness :
    (telemetryPOST 0 (fun _ => 0)
        { rawValidSample with frequency := some "ultra" } emptyDb).1.status = 400
    ∧ (telemetryPOST 0 (fun _ => 0)
        { rawValidSample with frequency := some "ultra" } emptyDb).2 = emptyDb :=
  invalid_telemetry_request_rejected_without_write 0 (fun _ => 0)
    { rawValidSample with frequency := some "ultra" } emptyDb
    (Or.inr (Or.inr (Or.inr (Or.inr ⟨"ultra", rfl, rfl⟩))))

/-! ## C2: getOrCreateDevice -/

/-- In a table whose mapped keys are distinct, distinct rows have distinct
keys. -/
theorem eq_of_nodup_map_key {α β : Type} {f : α → β} {l : List α}
    (h : (l.map f).Nodup) {x y : α} (hx : x ∈ l) (hy : y ∈ l) (hf : f x = f y) : x = y :=
  List.inj_on_of_nodup_map h hx hy hf

/-- With the `devices.device_id` uniqueness constraint, the lookup by
external id finds exactly the row carrying that id. -/
theorem find?_deviceId_of_mem {l : List DeviceRow} {did : String} {d : DeviceRow}
    (hnd : (l.map (fun x => x.deviceId)).Nodup) (hd : d ∈ l) (hdid : d.deviceId = did) :
    l.find? (fun x => x.deviceId == did) = some d := by
  induction l with
  | nil => cases hd
  | cons e t ih =>
      have hnd' : (e.deviceId :: t.map (fun x => x.deviceId)).Nodup := by
        simpa using hnd
      rcases List.mem_cons.mp hd with rfl | hdt
      · exact List.find?_cons_of_pos _ (by simp [hdid])
      · by_cases he : (e.deviceId == did) = true
        · exfalso
          have h1 : e.deviceId = did := by simpa using he
          have h2 : d.deviceId ∈ t.map (fun x => x.deviceId) :=
            List.mem_map_of_mem _ hdt
          rw [hdid, ← h1] at h2
          exact (List.nodup_cons.mp hnd').1 h2
        · rw [List.find?_cons_of_neg _ (by simpa using he)]
          exact ih (List.nodup_cons.mp hnd').2 hdt

/-- C2: when a device row with the submitted external id exists,
`getOrCreateDevice` returns its internal id and only bumps that row's
last-seen timestamp to the current time (no row added or removed, every
other row untouched, the id sequence untouched); when none exists, it
appends exactly one new row whose name defaults to the external id and
returns that row's freshly-allocated internal id.  The two `Nodup`
hypotheses are the table's primary-key and `device_id`-unique constraints. -/
theorem getOrCreateDevice_found_updates_else_creates (now : Int) (did : String) (db : Db)
    (hids : (db.devices.map (fun d => d.id)).Nodup)
    (hdids : (db.devices.map (fun d => d.deviceId)).Nodup) :
    (∀ d ∈ db.devices, d.deviceId = did →
       (getOrCreateDevice now did db).1 = d.id
       ∧ ((getOrCreateDevice now did db).2).devices.length = db.devices.length
       ∧ { d with lastSeenAt := now } ∈ ((getOrCreateDevice now did db).2).devices
       ∧ (∀ e ∈ db.devices, e ≠ d → e ∈ ((getOrCreateDevice now did db).2).devices)
       ∧ ((getOrCreateDevice now did db).2).nextDeviceId = db.nextDeviceId)
    ∧ ((∀ d ∈ db.devices, d.deviceId ≠ did) →
       (getOrCreateDevice now did db).1 = db.nextDeviceId
       ∧ ((getOrCreateDevice now did db).2).devices
           = db.devices ++ [{ id := db.nextDeviceId, deviceId := did, name := some did,
                              createdAt := now, lastSeenAt := now }]) := by
  constructor
  · intro d hd hdid
    have hfind : db.devices.find? (fun x => x.deviceId == did) = some d :=
      find?_deviceId_of_mem hdids hd hdid
    simp only [getOrCreateDevice, hfind]
    refine ⟨by trivial, by simp, ?_, ?_, by trivial⟩
    · have h1 := List.mem_map_of_mem
        (fun x => if x.id == d.id then { x with lastSeenAt := now } else x) hd
      simpa using h1
    · intro e he hne
      have hid : (e.id == d.id) = false := by
        simp only [beq_eq_false_iff_ne, ne_eq]
        intro hcontra
        exact hne (eq_of_nodup_map_key hids he hd hcontra)
      have h1 := List.mem_map_of_mem
        (fun x => if x.id == d.id then { x with lastSeenAt := now } else x) he
      simpa [hid] using h1
  · intro hall
    have hfind : db.devices.find? (fun x => x.deviceId == did) = none := by
      rw [List.find?_eq_none]
      intro x hx
      simp [hall x hx]
    simp only [getOrCreateDevice, hfind]
    exact ⟨by trivial, by trivial⟩

def sampleDeviceRow : DeviceRow where
  id := 5
  deviceId := "dev-a"
  name := some "dev-a"
  createdAt := 10
  lastSeenAt := 10

def sampleDevicesDb : Db :=
  { emptyDb with devices := [sampleDeviceRow], nextDeviceId := 6 }

/-- Witness for C2, exercising both the found and the not-found branch on a
one-device store. -/
theorem getOrCreateDevice_found_updates_else_creates_witness :
    ((getOrCreateDevice 99 "dev-a" sampleDevicesDb).1 = sampleDeviceRow.id
     ∧ ((getOrCreateDevice 99 "dev-a" sampleDevicesDb).2).devices.length
         = sampleDevicesDb.devices.length
     ∧ { sampleDeviceRow with lastSeenAt := 99 }
         ∈ ((getOrCreateDevice 99 "dev-a" sampleDevicesDb).2).devices
     ∧ ((getOrCreateDevice 99 "dev-a" sampleDevicesDb).2).nextDeviceId
         = sampleDevicesDb.nextDeviceId)
    ∧ ((getOrCreateDevice 99 "dev-b" sampleDevicesDb).1 = sampleDevicesDb.nextDeviceId
     ∧ ((getOrCreateDevice 99 "dev-b" sampleDevicesDb).2).devices
         = sampleDevicesDb.devices ++
             [{ id := sampleDevicesDb.nextDeviceId, deviceId := "dev-b",
                name := some "dev-b", createdAt := 99, lastSeenAt := 99 }]) := by
  have ha := (getOrCreateDevice_found_updates_else_creates 99 "dev-a" sampleDevicesDb
    (by decide) (by decide)).1 sampleDeviceRow (by simp [sampleDevicesDb]) rfl
  have hb := (getOrCreateDevice_found_updates_else_creates 99 "dev-b" sampleDevicesDb
    (by decide) (by decide)).2 (by decide)
  exact ⟨⟨ha.1, ha.2.1, ha.2.2.1, ha.2.2.2.2⟩, hb⟩

/-! ## C3: recursive storage-device insertion -/

mutual

/-- Number of nodes of a storage-device payload tree. -/
def countNodes : BlockDeviceTelemetry → Nat
  | .mk _ _ _ _ _ _ partitions =>
      1 + (match partitions with
           | none => 0
           | some parts => countNodesList parts)

def countNodesList : List BlockDeviceTelemetry → Nat
  | [] => 0
  | d :: rest => countNodes d + countNodesList rest

end

mutual

/-- Transcribed from the specified behaviour: one row per node, visited
depth-first; the node's row carries the given parent reference and the next
sequence id, and each partition's row carries the parent node's row id. -/
def storageRowsSpec (rid : Nat) (parent : Option Nat) (nextId : Nat)
    (d : BlockDeviceTelemetry) : List StorageDeviceRow :=
  match d with
  | .mk name ty size stats br bw partitions =>
      mkStorageDeviceRow rid nextId parent (.mk name ty size stats br bw partitions) ::
        (match partitions with
         | none => []
         | some parts => storageRowsSpecList rid (some nextId) (nextId + 1) parts)

def storageRowsSpecList (rid : Nat) (parent : Option Nat) (nextId : Nat) :
    List BlockDeviceTelemetry → List StorageDeviceRow
  | [] => []
  | d :: rest =>
      storageRowsSpec rid parent nextId d ++
        storageRowsSpecList rid parent (nextId + countNodes d) rest

end

mutual

/-- `insertStorageDevice` appends exactly the depth-first row list described
by the spec and advances the sequence by the number of nodes; nothing else in
the store changes. -/
theorem insertStorageDevice_eq (rid : Nat) (d : BlockDeviceTelemetry)
    (parent : Option Nat) (db : Db) :
    insertStorageDevice rid d parent db =
      { db with
          storageDeviceReadings := db.storageDeviceReadings ++
            storageRowsSpec rid parent db.nextStorageDeviceId d,
          nextStorageDeviceId := db.nextStorageDeviceId + countNodes d } := by
  match d with
  | .mk name ty size stats br bw partitions =>
      cases partitions with
      | none =>
          simp [insertStorageDevice, storageRowsSpec, countNodes]
      | some parts =>
          rw [insertStorageDevice]
          rw [insertStorageDeviceList_eq rid parts]
          simp only [storageRowsSpec, countNodes]
          refine congrArg₂ (fun (a : List StorageDeviceRow) (b : Nat) =>
            { db with storageDeviceReadings := a, nextStorageDeviceId := b }) ?_ ?_
          · simp [List.append_assoc]
          · omega

theorem insertStorageDeviceList_eq (rid : Nat) (ds : List BlockDeviceTelemetry)
    (parent : Option Nat) (db : Db) :
    insertStorageDeviceList rid ds parent db =
      { db with
          storageDeviceReadings := db.storageDeviceReadings ++
            storageRowsSpecList rid parent db.nextStorageDeviceId ds,
          nextStorageDeviceId := db.nextStorageDeviceId + countNodesList ds } := by
  match ds with
  | [] => simp [insertStorageDeviceList, storageRowsSpecList, countNodesList]
  | d :: rest =>
      rw [insertStorageDeviceList]
      rw [insertStorageDevice_eq rid d]
      rw [insertStorageDeviceList_eq rid rest]
      simp only [storageRowsSpecList, countNodesList]
      refine congrArg₂ (fun (a : List StorageDeviceRow) (b : Nat) =>
        { db with storageDeviceReadings := a, nextStorageDeviceId := b }) ?_ ?_
      · simp [List.append_assoc]
      · omega

end

/-- Combined facts about the depth-first row list, proved by strong
induction on the size of the (nested) tree: one row per node, and every row
references the submitted reading. -/
theorem storageRowsSpec_facts (n : Nat) :
    (∀ d : BlockDeviceTelemetry, sizeOf d ≤ n → ∀ rid parent nextId,
        (storageRowsSpec rid parent nextId d).length = countNodes d
        ∧ ∀ r ∈ storageRowsSpec rid parent nextId d, r.readingId = rid)
    ∧ (∀ ds : List BlockDeviceTelemetry, sizeOf ds ≤ n → ∀ rid parent nextId,
        (storageRowsSpecList rid parent nextId ds).length = countNodesList ds
        ∧ ∀ r ∈ storageRowsSpecList rid parent nextId ds, r.readingId = rid) := by
  induction n with
  | zero =>
      constructor
      · intro d hd
        exfalso
        match d with
        | .mk name ty size stats br bw partitions => simp at hd
      · intro ds hds
        exfalso
        cases ds with
        | nil => simp at hds
        | cons d rest => simp at hds
  | succ n ih =>
      constructor
      · intro d hd rid parent nextId
        match d with
        | .mk name ty size stats br bw partitions =>
            cases partitions with
            | none =>
                constructor
                · simp [storageRowsSpec, countNodes]
                · intro r hr
                  simp only [storageRowsSpec] at hr
                  rcases List.mem_cons.mp hr with rfl | hr'
                  · rfl
                  · cases hr'
            | some parts =>
                have hsize : sizeOf parts ≤ n := by
                  simp at hd
                  omega
                have hlist := ih.2 parts hsize rid (some nextId) (nextId + 1)
                constructor
                · simp only [storageRowsSpec, countNodes, List.length_cons]
                  rw [hlist.1]
                  omega
                · intro r hr
                  simp only [storageRowsSpec] at hr
                  rcases List.mem_cons.mp hr with rfl | hr'
                  · rfl
                  · exact hlist.2 r hr'
      · intro ds hds rid parent nextId
        match ds with
        | [] =>
            constructor
            · simp [storageRowsSpecList, countNodesList]
            · intro r hr
              simp only [storageRowsSpecList] at hr
              cases hr
        | d :: rest =>
            have h1 : sizeOf d ≤ n := by
              simp at hds
              omega
            have h2 : sizeOf rest ≤ n := by
              simp at hds
              omega
            have hhead := ih.1 d h1 rid parent nextId
            have htail := ih.2 rest h2 rid parent (nextId + countNodes d)
            constructor
            · simp only [storageRowsSpecList, countNodesList, List.length_append]
              rw [hhead.1, htail.1]
            · intro r hmem
              simp only [storageRowsSpecList] at hmem
              rcases List.mem_append.mp hmem with hm | hm
              · exact hhead.2 r hm
              · exact htail.2 r hm

/-- Exactly one row per node of the tree. -/
theorem storageRowsSpec_length (rid : Nat) (parent : Option Nat) (nextId : Nat)
    (d : BlockDeviceTelemetry) :
    (storageRowsSpec rid parent nextId d).length = countNodes d :=
  (((storageRowsSpec_facts (sizeOf d)).1 d le_rfl rid parent nextId)).1

/-- Every row produced for a storage-device tree references the submitted
reading. -/
theorem storageRowsSpec_readingId (rid : Nat) (parent : Option Nat) (nextId : Nat)
    (d : BlockDeviceTelemetry) :
    ∀ r ∈ storageRowsSpec rid parent nextId d, r.readingId = rid :=
  (((storageRowsSpec_facts (sizeOf d)).1 d le_rfl rid parent nextId)).2

theorem storageRowsSpecList_length (rid : Nat) (parent : Option Nat) (nextId : Nat)
    (ds : List BlockDeviceTelemetry) :
    (storageRowsSpecList rid parent nextId ds).length = countNodesList ds :=
  (((storageRowsSpec_facts (sizeOf ds)).2 ds le_rfl rid parent nextId)).1

theorem storageRowsSpecList_readingId (rid : Nat) (parent : Option Nat) (nextId : Nat)
    (ds : List BlockDeviceTelemetry) :
    ∀ r ∈ storageRowsSpecList rid parent nextId ds, r.readingId = rid :=
  (((storageRowsSpec_facts (sizeOf ds)).2 ds le_rfl rid parent nextId)).2

/-- The first row produced for a tree is the root's row: it gets the next
sequence id and carries the caller's parent reference (`null` at top level). -/
theorem storageRowsSpec_head (rid : Nat) (parent : Option Nat) (nextId : Nat)
    (d : BlockDeviceTelemetry) :
    (storageRowsSpec rid parent nextId d).head?.map
        (fun r => (r.id, r.parentDeviceId)) = some (nextId, parent) := by
  match d with
  | .mk name ty size stats br bw partitions => simp only [storageRowsSpec]; rfl

/-- C3: storage-device insertion walks the payload tree depth-first,
inserting exactly one row per node; the node's row carries the caller's
parent reference (`null` at the top level) and partitions are inserted with
their parent node's freshly-assigned row id (visible in `storageRowsSpec`,
which the insert provably appends).  In particular a root device listing two
partitions yields three rows: one with `parentDeviceId = null` and two with
`parentDeviceId` equal to the first row's id. -/
theorem insertStorageDevice_depth_first_one_row_per_node :
    (∀ rid d parent db, insertStorageDevice rid d parent db
        = { db with
            storageDeviceReadings := db.storageDeviceReadings ++
              storageRowsSpec rid parent db.nextStorageDeviceId d,
            nextStorageDeviceId := db.nextStorageDeviceId + countNodes d })
    ∧ (∀ rid parent nextId d, (storageRowsSpec rid parent nextId d).length = countNodes d)
    ∧ (∀ rid parent nextId d, (storageRowsSpec rid parent nextId d).head?.map
          (fun r => (r.id, r.parentDeviceId)) = some (nextId, parent))
    ∧ ((insertStorageDevice 7 sampleRootDevice none emptyDb).storageDeviceReadings.map
          (fun r => (r.id, r.parentDeviceId)) = [(1, none), (2, some 1), (3, some 1)]) := by
  refine ⟨insertStorageDevice_eq, ?_, ?_, ?_⟩
  · intro rid parent nextId d
    exact storageRowsSpec_length rid parent nextId d
  · intro rid parent nextId d
    exact storageRowsSpec_head rid parent nextId d
  · rw [insertStorageDevice_eq]
    simp [storageRowsSpec, storageRowsSpecList, countNodes, countNodesList,
      sampleRootDevice, samplePartitionOne, samplePartitionTwo, mkStorageDeviceRow,
      emptyDb, BlockDeviceTelemetry.name, BlockDeviceTelemetry.type,
      BlockDeviceTelemetry.size, BlockDeviceTelemetry.stats,
      BlockDeviceTelemetry.bytesRead, BlockDeviceTelemetry.bytesWritten,
      BlockDeviceTelemetry.partitions]

/-! ## C1: a reading's tier determines which child tables receive rows -/

/-- The child tables NOT belonging to the submitted tier are untouched by the
processing of that payload. -/
def crossTierChildTablesUnchanged (f : TelemetryFrequency) (db db' : Db) : Prop :=
  match f with
  | .high =>
      db'.cpuFrequencyStats = db.cpuFrequencyStats
      ∧ db'.cpuIdleStats = db.cpuIdleStats
      ∧ db'.gpuReadings = db.gpuReadings
      ∧ db'.storageDeviceReadings = db.storageDeviceReadings
      ∧ db'.storageSummaryReadings = db.storageSummaryReadings
      ∧ db'.processReadings = db.processReadings
      ∧ db'.processSummaryReadings = db.processSummaryReadings
      ∧ db'.sensorReadings = db.sensorReadings
      ∧ db'.displayReadings = db.displayReadings
      ∧ db'.ledReadings = db.ledReadings
      ∧ db'.rfKillReadings = db.rfKillReadings
      ∧ db'.systemWakeupReadings = db.systemWakeupReadings
  | .medium =>
      db'.batteryReadings = db.batteryReadings
      ∧ db'.usbInputReadings = db.usbInputReadings
      ∧ db'.usbPdReadings = db.usbPdReadings
      ∧ db'.typeCPortReadings = db.typeCPortReadings
      ∧ db'.thermalZoneReadings = db.thermalZoneReadings
      ∧ db'.coolingDeviceReadings = db.coolingDeviceReadings
      ∧ db'.thermalSummaryReadings = db.thermalSummaryReadings
      ∧ db'.cpuFrequencyReadings = db.cpuFrequencyReadings
      ∧ db'.cpuTimeReadings = db.cpuTimeReadings
      ∧ db'.cpuLoadReadings = db.cpuLoadReadings
      ∧ db'.memoryReadings = db.memoryReadings
      ∧ db'.networkInterfaceReadings = db.networkInterfaceReadings
      ∧ db'.networkSummaryReadings = db.networkSummaryReadings
      ∧ db'.sensorReadings = db.sensorReadings
      ∧ db'.displayReadings = db.displayReadings
      ∧ db'.ledReadings = db.ledReadings
      ∧ db'.rfKillReadings = db.rfKillReadings
      ∧ db'.systemWakeupReadings = db.systemWakeupReadings
  | .low =>
      db'.batteryReadings = db.batteryReadings
      ∧ db'.usbInputReadings = db.usbInputReadings
      ∧ db'.usbPdReadings = db.usbPdReadings
      ∧ db'.typeCPortReadings = db.typeCPortReadings
      ∧ db'.thermalZoneReadings = db.thermalZoneReadings
      ∧ db'.coolingDeviceReadings = db.coolingDeviceReadings
      ∧ db'.thermalSummaryReadings = db.thermalSummaryReadings
      ∧ db'.cpuFrequencyReadings = db.cpuFrequencyReadings
      ∧ db'.cpuTimeReadings = db.cpuTimeReadings
      ∧ db'.cpuLoadReadings = db.cpuLoadReadings
      ∧ db'.memoryReadings = db.memoryReadings
      ∧ db'.networkInterfaceReadings = db.networkInterfaceReadings
      ∧ db'.networkSummaryReadings = db.networkSummaryReadings
      ∧ db'.cpuFrequencyStats = db.cpuFrequencyStats
      ∧ db'.cpuIdleStats = db.cpuIdleStats
      ∧ db'.gpuReadings = db.gpuReadings
      ∧ db'.storageDeviceReadings = db.storageDeviceReadings
      ∧ db'.storageSummaryReadings = db.storageSummaryReadings
      ∧ db'.processReadings = db.processReadings
      ∧ db'.processSummaryReadings = db.processSummaryReadings

/-- Every row of the submitted tier's child tables is either pre-existing or
references the created reading. -/
def ownTierRowsReference (f : TelemetryFrequency) (rid : Nat) (db db' : Db) : Prop :=
  match f with
  | .high =>
      (∀ r ∈ db'.batteryReadings, r ∈ db.batteryReadings ∨ r.readingId = rid)
      ∧ (∀ r ∈ db'.usbInputReadings, r ∈ db.usbInputReadings ∨ r.readingId = rid)
      ∧ (∀ r ∈ db'.usbPdReadings, r ∈ db.usbPdReadings ∨ r.readingId = rid)
      ∧ (∀ r ∈ db'.typeCPortReadings, r ∈ db.typeCPortReadings ∨ r.readingId = rid)
      ∧ (∀ r ∈ db'.thermalZoneReadings, r ∈ db.thermalZoneReadings ∨ r.readingId = rid)
      ∧ (∀ r ∈ db'.coolingDeviceReadings, r ∈ db.coolingDeviceReadings ∨ r.readingId = rid)
      ∧ (∀ r ∈ db'.thermalSummaryReadings, r ∈ db.thermalSummaryReadings ∨ r.readingId = rid)
      ∧ (∀ r ∈ db'.cpuFrequencyReadings, r ∈ db.cpuFrequencyReadings ∨ r.readingId = rid)
      ∧ (∀ r ∈ db'.cpuTimeReadings, r ∈ db.cpuTimeReadings ∨ r.readingId = rid)
      ∧ (∀ r ∈ db'.cpuLoadReadings, r ∈ db.cpuLoadReadings ∨ r.readingId = rid)
      ∧ (∀ r ∈ db'.memoryReadings, r ∈ db.memoryReadings ∨ r.readingId = rid)
      ∧ (∀ r ∈ db'.networkInterfaceReadings, r ∈ db.networkInterfaceReadings ∨ r.readingId = rid)
      ∧ (∀ r ∈ db'.networkSummaryReadings, r ∈ db.networkSummaryReadings ∨ r.readingId = rid)
  | .medium =>
      (∀ r ∈ db'.cpuFrequencyStats, r ∈ db.cpuFrequencyStats ∨ r.readingId = rid)
      ∧ (∀ r ∈ db'.cpuIdleStats, r ∈ db.cpuIdleStats ∨ r.readingId = rid)
      ∧ (∀ r ∈ db'.gpuReadings, r ∈ db.gpuReadings ∨ r.readingId = rid)
      ∧ (∀ r ∈ db'.storageDeviceReadings, r ∈ db.storageDeviceReadings ∨ r.readingId = rid)
      ∧ (∀ r ∈ db'.storageSummaryReadings, r ∈ db.storageSummaryReadings ∨ r.readingId = rid)
      ∧ (∀ r ∈ db'.processReadings, r ∈ db.processReadings ∨ r.readingId = rid)
      ∧ (∀ r ∈ db'.processSummaryReadings, r ∈ db.processSummaryReadings ∨ r.readingId = rid)
  | .low =>
      (∀ r ∈ db'.sensorReadings, r ∈ db.sensorReadings ∨ r.readingId = rid)
      ∧ (∀ r ∈ db'.displayReadings, r ∈ db.displayReadings ∨ r.readingId = rid)
      ∧ (∀ r ∈ db'.ledReadings, r ∈ db.ledReadings ∨ r.readingId = rid)
      ∧ (∀ r ∈ db'.rfKillReadings, r ∈ db.rfKillReadings ∨ r.readingId = rid)
      ∧ (∀ r ∈ db'.systemWakeupReadings, r ∈ db.systemWakeupReadings ∨ r.readingId = rid)

/-- Rows appended to a table all satisfying `p` keep the `old-or-p`
alternative for the whole table. -/
theorem forall_mem_append_or {α : Type} (p : α → Prop) {l1 l2 : List α}
    (h : ∀ r ∈ l2, p r) : ∀ r ∈ l1 ++ l2, r ∈ l1 ∨ p r := by
  intro r hr
  rcases List.mem_append.mp hr with h1 | h2
  · exact Or.inl h1
  · exact Or.inr (h r h2)

/-- The device-lookup/update plus reading-creation prefix of payload
processing, when `timestampMs` is present, succeeds, returns the next
reading id, only rewrites the `devices` table and its id sequence, and
appends one reading carrying the submitted tier. -/
theorem prefixDb_shape (now : Int) (did : String) (ts : Int) (ms : Int)
    (f : TelemetryFrequency) (db : Db) :
    ∃ ds nid,
      createReading (getOrCreateDevice now did db).1 ts (some ms) f
          (getOrCreateDevice now did db).2
        = some (db.nextReadingId,
            { db with devices := ds, nextDeviceId := nid,
                      readings := db.readings ++
                        [{ id := db.nextReadingId,
                           deviceId := (getOrCreateDevice now did db).1,
                           timestamp := ts, timestampMs := ms, frequency := f }],
                      nextReadingId := db.nextReadingId + 1 }) := by
  cases hfind : db.devices.find? (fun d => d.deviceId == did) with
  | some e =>
      refine ⟨db.devices.map (fun d =>
          if d.id == e.id then { d with lastSeenAt := now } else d),
        db.nextDeviceId, ?_⟩
      simp [getOrCreateDevice, createReading, hfind]
  | none =>
      refine ⟨db.devices ++
          [{ id := db.nextDeviceId, deviceId := did, name := some did,
             createdAt := now, lastSeenAt := now }],
        db.nextDeviceId + 1, ?_⟩
      simp [getOrCreateDevice, createReading, hfind]

/-- Rows coming out of an optional array of arrays (`payload.x?.map(...) ?? []`
insert lists) are all images of the inner map. -/
theorem mem_optionMap_getD {α β : Type} {o : Option (List α)} {g : α → β} {r : β}
    (hr : r ∈ (o.map (fun l => l.map g)).getD []) : ∃ z, r = g z := by
  cases o with
  | none => simp at hr
  | some l =>
      simp only [Option.map_some', Option.getD_some, List.mem_map] at hr
      obtain ⟨z, _, hz⟩ := hr
      exact ⟨z, hz.symm⟩

/-- C1: processing a payload writes child rows only into the tables of the
submitted tier, every row it adds there references the created reading, and
the child tables of the two other tiers are left exactly as they were. -/
theorem tier_child_tables_isolated (now : Int) (p : TelemetryPayload) (db : Db)
    (res : TelemetryInsertResult)
    (h : (processTelemetryPayload now p db).1 = some res) :
    crossTierChildTablesUnchanged p.frequency db (processTelemetryPayload now p db).2
    ∧ ownTierRowsReference p.frequency res.readingId db
        (processTelemetryPayload now p db).2 := by
  cases hf : p.frequency with
  | high =>
      cases hd : p.data with
      | high dataH =>
          rcases hms : p.timestampMs with _ | ms
          · exfalso
            simp [processTelemetryPayload, createReading, hms] at h
          obtain ⟨ds, nid, hshape⟩ := prefixDb_shape now p.deviceId p.timestamp
            ms TelemetryFrequency.high db
          simp only [processTelemetryPayload, hf, hd, hms, hshape] at h ⊢
          rw [Option.some_inj] at h
          subst h
          refine ⟨by simp [crossTierChildTablesUnchanged, insertHighFrequencyData], ?_⟩
          simp only [ownTierRowsReference, insertHighFrequencyData]
          refine ⟨?_, ?_, ?_, ?_, ?_, ?_, ?_, ?_, ?_, ?_, ?_, ?_, ?_⟩ <;>
            exact forall_mem_append_or _ (by
              intro r hr
              first
              | (simp only [List.mem_singleton] at hr; subst hr; rfl)
              | (simp only [List.mem_map] at hr; obtain ⟨z, hz, rfl⟩ := hr; rfl))
      | medium dataM => rcases hms : p.timestampMs with _ | ms <;>
          simp [processTelemetryPayload, createReading, hf, hd, hms] at h
      | low dataL => rcases hms : p.timestampMs with _ | ms <;>
          simp [processTelemetryPayload, createReading, hf, hd, hms] at h
  | medium =>
      cases hd : p.data with
      | high dataH => rcases hms : p.timestampMs with _ | ms <;>
          simp [processTelemetryPayload, createReading, hf, hd, hms] at h
      | medium dataM =>
          rcases hms : p.timestampMs with _ | ms
          · exfalso
            simp [processTelemetryPayload, createReading, hms] at h
          obtain ⟨ds, nid, hshape⟩ := prefixDb_shape now p.deviceId p.timestamp
            ms TelemetryFrequency.medium db
          simp only [processTelemetryPayload, hf, hd, hms, hshape] at h ⊢
          rw [Option.some_inj] at h
          subst h
          simp only [insertMediumFrequencyData]
          rw [insertStorageDeviceList_eq]
          refine ⟨by simp [crossTierChildTablesUnchanged], ?_⟩
          simp only [ownTierRowsReference]
          refine ⟨?_, ?_, ?_, ?_, ?_, ?_, ?_⟩
          · exact forall_mem_append_or _ (by
              intro r hr
              obtain ⟨z, rfl⟩ := mem_optionMap_getD hr
              rfl)
          · exact forall_mem_append_or _ (by
              intro r hr
              obtain ⟨z, rfl⟩ := mem_optionMap_getD hr
              rfl)
          · exact forall_mem_append_or _ (by
              intro r hr
              simp only [List.mem_singleton] at hr
              subst hr
              rfl)
          · exact forall_mem_append_or _ (fun r hr =>
              storageRowsSpecList_readingId _ _ _ _ r hr)
          · exact forall_mem_append_or _ (by
              intro r hr
              simp only [List.mem_singleton] at hr
              subst hr
              rfl)
          · exact forall_mem_append_or _ (by
              intro r hr
              simp only [List.mem_map] at hr
              obtain ⟨z, hz, rfl⟩ := hr
              rfl)
          · exact forall_mem_append_or _ (by
              intro r hr
              simp only [List.mem_singleton] at hr
              subst hr
              rfl)
      | low dataL => rcases hms : p.timestampMs with _ | ms <;>
          simp [processTelemetryPayload, createReading, hf, hd, hms] at h
  | low =>
      cases hd : p.data with
      | high dataH => rcases hms : p.timestampMs with _ | ms <;>
          simp [processTelemetryPayload, createReading, hf, hd, hms] at h
      | medium dataM => rcases hms : p.timestampMs with _ | ms <;>
          simp [processTelemetryPayload, createReading, hf, hd, hms] at h
      | low dataL =>
          rcases hms : p.timestampMs with _ | ms
          · exfalso
            simp [processTelemetryPayload, createReading, hms] at h
          obtain ⟨ds, nid, hshape⟩ := prefixDb_shape now p.deviceId p.timestamp
            ms TelemetryFrequency.low db
          simp only [processTelemetryPayload, hf, hd, hms, hshape] at h ⊢
          rw [Option.some_inj] at h
          subst h
          refine ⟨by simp [crossTierChildTablesUnchanged, insertLowFrequencyData], ?_⟩
          simp only [ownTierRowsReference, insertLowFrequencyData]
          refine ⟨?_, ?_, ?_, ?_, ?_⟩ <;>
            exact forall_mem_append_or _ (by
              intro r hr
              first
              | (simp only [List.mem_singleton] at hr; subst hr; rfl)
              | (simp only [List.mem_map] at hr; obtain ⟨z, hz, rfl⟩ := hr; rfl))

/-- Witness for C1, exercising all three tiers on the empty store. -/
theorem tier_child_tables_isolated_witness :
    (crossTierChildTablesUnchanged TelemetryFrequency.high emptyDb
        (processTelemetryPayload 0 sampleHighPayload emptyDb).2
      ∧ ownTierRowsReference TelemetryFrequency.high 1 emptyDb
        (processTelemetryPayload 0 sampleHighPayload emptyDb).2)
    ∧ (crossTierChildTablesUnchanged TelemetryFrequency.medium emptyDb
        (processTelemetryPayload 0 sampleMediumPayload emptyDb).2
      ∧ ownTierRowsReference TelemetryFrequency.medium 1 emptyDb
        (processTelemetryPayload 0 sampleMediumPayload emptyDb).2)
    ∧ (crossTierChildTablesUnchanged TelemetryFrequency.low emptyDb
        (processTelemetryPayload 0 sampleLowPayload emptyDb).2
      ∧ ownTierRowsReference TelemetryFrequency.low 1 emptyDb
        (processTelemetryPayload 0 sampleLowPayload emptyDb).2) := by
  refine ⟨?_, ?_, ?_⟩
  · exact tier_child_tables_isolated 0 sampleHighPayload emptyDb
      { readingId := 1, deviceId := 1 } rfl
  · exact tier_child_tables_isolated 0 sampleMediumPayload emptyDb
      { readingId := 1, deviceId := 1 } rfl
  · exact tier_child_tables_isolated 0 sampleLowPayload emptyDb
      { readingId := 1, deviceId := 1 } rfl

/-! ## C5: batch validation collects all errors and rejects without writes -/

/-- C5: POST /api/telemetry/batch returns 400 and writes nothing when the
payloads field is missing/not an array, when the array is empty, or when any
element fails per-field validation; in the last case every failing element's
error is collected (in index order) and joined into the single response
message, and no payload of the batch is written. -/
theorem batch_validation_errors_rejected_without_write (now : Int)
    (parseDate : String → Int) (body : RawBatchBody) (db : Db) :
    (body.payloads = none →
      (telemetryBatchPOST now parseDate body db).1.status = 400
      ∧ (telemetryBatchPOST now parseDate body db).2 = db)
    ∧ (body.payloads = some [] →
      (telemetryBatchPOST now parseDate body db).1.status = 400
      ∧ (telemetryBatchPOST now parseDate body db).2 = db)
    ∧ (∀ l, body.payloads = some l →
      (∃ i p, l[i]? = some p ∧ batchElementError i p ≠ none) →
      (telemetryBatchPOST now parseDate body db).1.status = 400
      ∧ (telemetryBatchPOST now parseDate body db).2 = db
      ∧ (telemetryBatchPOST now parseDate body db).1.error
          = some ("Validation errors: " ++
              String.intercalate "; " (batchValidationErrors l))
      ∧ (∀ i p e, l[i]? = some p → batchElementError i p = some e →
          e ∈ batchValidationErrors l)) := by
  refine ⟨?_, ?_, ?_⟩
  · intro h
    constructor <;> simp [telemetryBatchPOST, h]
  · intro h
    constructor <;> simp [telemetryBatchPOST, h, batchValidationErrors]
  · rintro l hl ⟨i, p, hp, he⟩
    have hcollect : ∀ i' p' e', l[i']? = some p' → batchElementError i' p' = some e' →
        e' ∈ batchValidationErrors l := by
      intro i' p' e' hp' he'
      exact List.mem_filterMap.mpr
        ⟨(i', p'), List.mem_enum_iff_getElem?.mpr (by simpa using hp'), he'⟩
    have hne : batchValidationErrors l ≠ [] := by
      obtain ⟨e, he2⟩ := Option.ne_none_iff_exists'.mp he
      intro hcon
      have := hcollect i p e hp he2
      rw [hcon] at this
      cases this
    have hlen : 0 < (batchValidationErrors l).length := List.length_pos.mpr hne
    have hlne : (l.length == 0) = false := by
      cases l with
      | nil => simp at hp
      | cons a t => simp
    simp only [batchValidationErrors] at hlen
    refine ⟨?_, ?_, ?_, hcollect⟩ <;>
      simp [telemetryBatchPOST, hl, hlne, batchValidationErrors, hlen]

def rawUltraSample : RawTelemetryPayload :=
  { rawValidSample with frequency := some "ultra" }

/-- Witness for C5 at the three rejection shapes. -/
theorem batch_validation_errors_rejected_without_write_witness :
    ((telemetryBatchPOST 0 (fun _ => 0) { payloads := none } emptyDb).1.status = 400
      ∧ (telemetryBatchPOST 0 (fun _ => 0) { payloads := none } emptyDb).2 = emptyDb)
    ∧ ((telemetryBatchPOST 0 (fun _ => 0) { payloads := some [] } emptyDb).1.status = 400
      ∧ (telemetryBatchPOST 0 (fun _ => 0) { payloads := some [] } emptyDb).2 = emptyDb)
    ∧ ((telemetryBatchPOST 0 (fun _ => 0)
          { payloads := some [rawUltraSample] } emptyDb).1.status = 400
      ∧ (telemetryBatchPOST 0 (fun _ => 0)
          { payloads := some [rawUltraSample] } emptyDb).2 = emptyDb
      ∧ (telemetryBatchPOST 0 (fun _ => 0)
          { payloads := some [rawUltraSample] } emptyDb).1.error
          = some ("Validation errors: " ++
              String.intercalate "; " (batchValidationErrors [rawUltraSample]))) := by
  refine ⟨?_, ?_, ?_⟩
  · exact (batch_validation_errors_rejected_without_write 0 (fun _ => 0)
      { payloads := none } emptyDb).1 rfl
  · exact (batch_validation_errors_rejected_without_write 0 (fun _ => 0)
      { payloads := some [] } emptyDb).2.1 rfl
  · have h := (batch_validation_errors_rejected_without_write 0 (fun _ => 0)
      { payloads := some [rawUltraSample] } emptyDb).2.2 [rawUltraSample] rfl
      ⟨0, rawUltraSample, rfl, by decide⟩
    exact ⟨h.1, h.2.1, h.2.2.1⟩

/-! ## C6: a batch of K valid payloads is processed sequentially in order -/

/-- The payload's data object actually has the shape its frequency tag
announces (the client contract; a mismatch makes the tier insert throw). -/
def dataMatchesFrequency (q : TelemetryPayload) : Prop :=
  match q.frequency, q.data with
  | .high, .high _ => True
  | .medium, .medium _ => True
  | .low, .low _ => True
  | _, _ => False

/-- Processing one well-shaped payload that carries `timestampMs` succeeds
and appends exactly one reading row, carrying the payload's timestamps and
tier. -/
theorem processTelemetryPayload_creates_one_reading (now : Int) (p : TelemetryPayload)
    (db : Db) (ms : Int) (hms : p.timestampMs = some ms)
    (hm : dataMatchesFrequency p) :
    (∃ r, (processTelemetryPayload now p db).1 = some r)
    ∧ (processTelemetryPayload now p db).2.readings
        = db.readings ++
            [{ id := db.nextReadingId, deviceId := (getOrCreateDevice now p.deviceId db).1,
               timestamp := p.timestamp, timestampMs := ms,
               frequency := p.frequency }] := by
  cases hf : p.frequency with
  | high =>
      cases hd : p.data with
      | high dataH =>
          obtain ⟨ds, nid, hshape⟩ := prefixDb_shape now p.deviceId p.timestamp
            ms TelemetryFrequency.high db
          simp only [processTelemetryPayload, hf, hd, hms, hshape]
          refine ⟨⟨_, rfl⟩, ?_⟩
          simp [insertHighFrequencyData]
      | medium dataM => simp [dataMatchesFrequency, hf, hd] at hm
      | low dataL => simp [dataMatchesFrequency, hf, hd] at hm
  | medium =>
      cases hd : p.data with
      | high dataH => simp [dataMatchesFrequency, hf, hd] at hm
      | medium dataM =>
          obtain ⟨ds, nid, hshape⟩ := prefixDb_shape now p.deviceId p.timestamp
            ms TelemetryFrequency.medium db
          simp only [processTelemetryPayload, hf, hd, hms, hshape]
          refine ⟨⟨_, rfl⟩, ?_⟩
          simp only [insertMediumFrequencyData]
          rw [insertStorageDeviceList_eq]
      | low dataL => simp [dataMatchesFrequency, hf, hd] at hm
  | low =>
      cases hd : p.data with
      | high dataH => simp [dataMatchesFrequency, hf, hd] at hm
      | medium dataM => simp [dataMatchesFrequency, hf, hd] at hm
      | low dataL =>
          obtain ⟨ds, nid, hshape⟩ := prefixDb_shape now p.deviceId p.timestamp
            ms TelemetryFrequency.low db
          simp only [processTelemetryPayload, hf, hd, hms, hshape]
          refine ⟨⟨_, rfl⟩, ?_⟩
          simp [insertLowFrequencyData]

/-- A payload that omits `timestampMs` passes route validation but makes the
reading insert violate the `timestamp_ms` not-null constraint: processing
throws with no result, no reading row, and only the device write persisted
(the route surfaces this as a 500). -/
theorem processTelemetryPayload_missing_timestampMs (now : Int) (p : TelemetryPayload)
    (db : Db) (hms : p.timestampMs = none) :
    (processTelemetryPayload now p db).1 = none
    ∧ (processTelemetryPayload now p db).2 = (getOrCreateDevice now p.deviceId db).2 := by
  constructor <;> simp [processTelemetryPayload, createReading, hms]

/-- A batch of well-shaped payloads is processed in order: one result and one
appended reading per payload, pre-existing readings untouched, the new
readings in payload order. -/
theorem processTelemetryBatch_all_ok (now : Int) (ps : List TelemetryPayload) (db : Db)
    (hms : ∀ q ∈ ps, q.timestampMs.isSome)
    (hm : ∀ q ∈ ps, dataMatchesFrequency q) :
    (∃ rs, (processTelemetryBatch now ps db).1 = some rs ∧ rs.length = ps.length)
    ∧ (processTelemetryBatch now ps db).2.readings.length
        = db.readings.length + ps.length
    ∧ (processTelemetryBatch now ps db).2.readings.take db.readings.length = db.readings
    ∧ ((processTelemetryBatch now ps db).2.readings.drop db.readings.length).map
        (fun r => some r.timestampMs) = ps.map (fun q => q.timestampMs) := by
  induction ps generalizing db with
  | nil =>
      refine ⟨⟨[], rfl, rfl⟩, by simp [processTelemetryBatch], ?_, ?_⟩
      · simp [processTelemetryBatch]
      · simp [processTelemetryBatch]
  | cons p rest ih =>
      obtain ⟨ms, hpms⟩ := Option.isSome_iff_exists.mp (hms p (by simp))
      obtain ⟨⟨r, hr⟩, hreads⟩ :=
        processTelemetryPayload_creates_one_reading now p db ms hpms (hm p (by simp))
      have ihd := ih (processTelemetryPayload now p db).2
        (fun q hq => hms q (by simp [hq]))
        (fun q hq => hm q (by simp [hq]))
      obtain ⟨⟨rs, hrs, hrslen⟩, hlen, htake, hdrop⟩ := ihd
      have h1 : (processTelemetryPayload now p db).2.readings.length
          = db.readings.length + 1 := by
        rw [hreads]; simp
      have hsplit : (processTelemetryBatch now rest (processTelemetryPayload now p db).2).2.readings
          = db.readings ++
            ([{ id := db.nextReadingId,
                deviceId := (getOrCreateDevice now p.deviceId db).1,
                timestamp := p.timestamp, timestampMs := ms,
                frequency := p.frequency }] ++
              (processTelemetryBatch now rest
                (processTelemetryPayload now p db).2).2.readings.drop
                  (processTelemetryPayload now p db).2.readings.length) := by
        conv_lhs => rw [← List.take_append_drop
          ((processTelemetryPayload now p db).2.readings.length)
          ((processTelemetryBatch now rest (processTelemetryPayload now p db).2).2.readings)]
        rw [htake, hreads, List.append_assoc]
      refine ⟨⟨r :: rs, ?_, ?_⟩, ?_, ?_, ?_⟩
      · simp only [processTelemetryBatch, hr, hrs, Option.map_some']
      · simp [hrslen]
      · simp only [processTelemetryBatch, hr]
        rw [hlen, h1]
        simp
        omega
      · simp only [processTelemetryBatch, hr]
        rw [hsplit]
        conv_rhs => rw [← List.take_left db.readings
          ([{ id := db.nextReadingId,
              deviceId := (getOrCreateDevice now p.deviceId db).1,
              timestamp := p.timestamp, timestampMs := ms,
              frequency := p.frequency }] ++
            (processTelemetryBatch now rest
              (processTelemetryPayload now p db).2).2.readings.drop
                (processTelemetryPayload now p db).2.readings.length)]
      · simp only [processTelemetryBatch, hr]
        rw [hsplit, List.drop_left]
        simp only [List.map_append, List.map_cons, List.map_nil]
        rw [hdrop, hpms]
        simp

theorem truthyStr_exists {o : Option String} (h : truthyStr o = true) :
    ∃ s, o = some s := by
  cases o with
  | none => simp [truthyStr] at h
  | some s => exact ⟨s, rfl⟩

/-- A raw payload that passed validation converts to a typed payload. -/
theorem toTelemetryPayload_isSome (parseDate : String → Int) {p : RawTelemetryPayload}
    (hmiss : missingRequiredFields p = false) {f : String} (hf : p.frequency = some f)
    (hpf : (parseFrequency f).isSome) :
    (toTelemetryPayload parseDate p).isSome := by
  have hall : (truthyStr p.deviceId && truthyStr p.timestamp && truthyStr p.frequency
      && p.data.isSome) = true := by
    simpa [missingRequiredFields] using hmiss
  simp only [Bool.and_eq_true] at hall
  obtain ⟨did, hdid⟩ := truthyStr_exists hall.1.1.1
  obtain ⟨ts, hts⟩ := truthyStr_exists hall.1.1.2
  obtain ⟨d, hd⟩ := Option.isSome_iff_exists.mp hall.2
  cases hc : parseFrequency f with
  | none => rw [hc] at hpf; simp at hpf
  | some fr => simp [toTelemetryPayload, hdid, hts, hf, hd, hc]

/-- The conversion preserves the payload's timestampMs. -/
theorem toTelemetryPayload_timestampMs {parseDate : String → Int}
    {p : RawTelemetryPayload} {q : TelemetryPayload}
    (h : toTelemetryPayload parseDate p = some q) : q.timestampMs = p.timestampMs := by
  cases hdid : p.deviceId with
  | none => simp [toTelemetryPayload, hdid] at h
  | some did =>
      cases hts : p.timestamp with
      | none => simp [toTelemetryPayload, hdid, hts] at h
      | some ts =>
          cases hf : p.frequency with
          | none => simp [toTelemetryPayload, hdid, hts, hf] at h
          | some f =>
              cases hd : p.data with
              | none => simp [toTelemetryPayload, hdid, hts, hf, hd] at h
              | some d =>
                  cases hc : parseFrequency f with
                  | none => simp [toTelemetryPayload, hdid, hts, hf, hd, hc] at h
                  | some fr =>
                      simp only [toTelemetryPayload, hdid, hts, hf, hd, hc,
                        Option.map_some', Option.some_inj] at h
                      rw [← h]

/-- Converting a fully valid list drops nothing and keeps order. -/
theorem filterMap_toPayload_facts (parseDate : String → Int)
    (l : List RawTelemetryPayload)
    (h : ∀ p ∈ l, (toTelemetryPayload parseDate p).isSome) :
    (l.filterMap (toTelemetryPayload parseDate)).length = l.length
    ∧ (l.filterMap (toTelemetryPayload parseDate)).map (fun q => q.timestampMs)
        = l.map (fun p => p.timestampMs) := by
  induction l with
  | nil => exact ⟨rfl, rfl⟩
  | cons p rest ih =>
      obtain ⟨q, hq⟩ := Option.isSome_iff_exists.mp (h p (by simp))
      have ihr := ih (fun x hx => h x (by simp [hx]))
      constructor
      · simp [List.filterMap_cons, hq, ihr.1]
      · simp only [List.filterMap_cons, hq, List.map_cons]
        rw [toTelemetryPayload_timestampMs hq, ihr.2]

/-- Valid payloads produce no per-element validation errors. -/
theorem batchValidationErrors_eq_nil {l : List RawTelemetryPayload}
    (hval : ∀ p ∈ l, missingRequiredFields p = false
      ∧ ∃ f, p.frequency = some f ∧ (parseFrequency f).isSome) :
    batchValidationErrors l = [] := by
  unfold batchValidationErrors
  rw [List.filterMap_eq_nil_iff]
  rintro ⟨i, p⟩ hmem
  have hp : p ∈ l := by
    have h1 := List.mem_enum_iff_getElem?.mp hmem
    obtain ⟨hlt, heq⟩ := List.getElem?_eq_some.mp h1
    have heq2 : l[i] = p := heq
    exact heq2 ▸ List.getElem_mem hlt
  obtain ⟨hmiss, f, hf, hpf⟩ := hval p hp
  cases hc : parseFrequency f with
  | none => rw [hc] at hpf; simp at hpf
  | some fr => simp [batchElementError, hmiss, hf, hc]

/-- C6: a batch of K valid, well-shaped payloads — each carrying the
`timestampMs` the body shape requires, without which the NOT-NULL reading
insert would throw and the endpoint answer 500 — is accepted with 201; the
acknowledgment reports received = K, failed = 0, one reading id per payload;
exactly K reading rows are appended, the pre-existing readings are untouched,
and the new rows appear in payload order (their timestampMs sequence equals
the payloads' timestampMs sequence), reflecting the strictly sequential
processing. -/
theorem batch_of_valid_payloads_processed_in_order (now : Int)
    (parseDate : String → Int) (l : List RawTelemetryPayload) (db : Db)
    (hne : l ≠ [])
    (hval : ∀ p ∈ l, missingRequiredFields p = false
      ∧ ∃ f, p.frequency = some f ∧ (parseFrequency f).isSome)
    (hms : ∀ p ∈ l, p.timestampMs.isSome)
    (hmatch : ∀ p ∈ l, ∀ q, toTelemetryPayload parseDate p = some q →
      dataMatchesFrequency q) :
    (telemetryBatchPOST now parseDate { payloads := some l } db).1.status = 201
    ∧ (∃ ack, (telemetryBatchPOST now parseDate { payloads := some l } db).1.ack
        = some ack
        ∧ ack.received = l.length ∧ ack.failed = 0 ∧ ack.ids.length = l.length)
    ∧ (telemetryBatchPOST now parseDate { payloads := some l } db).2.readings.length
        = db.readings.length + l.length
    ∧ (telemetryBatchPOST now parseDate
        { payloads := some l } db).2.readings.take db.readings.length = db.readings
    ∧ ((telemetryBatchPOST now parseDate
        { payloads := some l } db).2.readings.drop db.readings.length).map
          (fun r => some r.timestampMs)
        = l.map (fun p => p.timestampMs) := by
  have hsome : ∀ p ∈ l, (toTelemetryPayload parseDate p).isSome := by
    intro p hp
    obtain ⟨hm, f, hf, hpf⟩ := hval p hp
    exact toTelemetryPayload_isSome parseDate hm hf hpf
  have herr : batchValidationErrors l = [] := batchValidationErrors_eq_nil hval
  have hlne : (l.length == 0) = false := by
    cases l with
    | nil => exact absurd rfl hne
    | cons a t => simp
  have hfm := filterMap_toPayload_facts parseDate l hsome
  have hmatch' : ∀ q ∈ l.filterMap (toTelemetryPayload parseDate),
      dataMatchesFrequency q := by
    intro q hq
    obtain ⟨p, hp, hpq⟩ := List.mem_filterMap.mp hq
    exact hmatch p hp q hpq
  have hms' : ∀ q ∈ l.filterMap (toTelemetryPayload parseDate),
      q.timestampMs.isSome := by
    intro q hq
    obtain ⟨p, hp, hpq⟩ := List.mem_filterMap.mp hq
    rw [toTelemetryPayload_timestampMs hpq]
    exact hms p hp
  obtain ⟨⟨rs, hrs, hrslen⟩, hlen, htake, hdrop⟩ :=
    processTelemetryBatch_all_ok now (l.filterMap (toTelemetryPayload parseDate)) db
      hms' hmatch'
  have hroute : telemetryBatchPOST now parseDate { payloads := some l } db
      = ({ status := 201, success := true, error := none,
           ack := some { received := rs.length, failed := 0,
                         ids := rs.map (fun r => toString r.readingId),
                         errors := [] } },
         (processTelemetryBatch now (l.filterMap (toTelemetryPayload parseDate)) db).2) := by
    simp [telemetryBatchPOST, hlne, herr, hrs]
  rw [hroute]
  refine ⟨rfl, ⟨_, rfl, ?_, rfl, ?_⟩, ?_, htake, ?_⟩
  · rw [hrslen, hfm.1]
  · simp [hrslen, hfm.1]
  · rw [hlen, hfm.1]
  · rw [hdrop, hfm.2]

def convertedHighSample : TelemetryPayload where
  deviceId := "ppp-1"
  timestamp := 0
  timestampMs := some 1000
  frequency := .high
  data := .high sampleHighData

def convertedLowSample : TelemetryPayload where
  deviceId := "ppp-1"
  timestamp := 0
  timestampMs := some 5000
  frequency := .low
  data := .low sampleLowData

def rawValidLowSample : RawTelemetryPayload where
  deviceId := some "ppp-1"
  timestamp := some "2025-01-01T00:05:00Z"
  timestampMs := some 5000
  frequency := some "low"
  data := some (.low sampleLowData)

/-- Witness for C6: a two-payload batch is accepted and appends two readings
in payload order. -/
theorem batch_of_valid_payloads_processed_in_order_witness :
    (telemetryBatchPOST 0 (fun _ => 0)
        { payloads := some [rawValidSample, rawValidLowSample] } emptyDb).1.status = 201
    ∧ (telemetryBatchPOST 0 (fun _ => 0)
        { payloads := some [rawValidSample, rawValidLowSample] } emptyDb).2.readings.length
        = emptyDb.readings.length + 2
    ∧ (telemetryBatchPOST 0 (fun _ => 0)
        { payloads := some [rawValidSample, rawValidLowSample] }
          emptyDb).2.readings.take emptyDb.readings.length = emptyDb.readings
    ∧ ((telemetryBatchPOST 0 (fun _ => 0)
        { payloads := some [rawValidSample, rawValidLowSample] } emptyDb).2.readings.drop
          emptyDb.readings.length).map (fun r => some r.timestampMs)
        = [some 1000, some 5000] := by
  have h := batch_of_valid_payloads_processed_in_order 0 (fun _ => 0)
    [rawValidSample, rawValidLowSample] emptyDb (by simp)
    (by
      intro p hp
      rcases List.mem_cons.mp hp with rfl | hp2
      · exact ⟨by decide, "high", rfl, rfl⟩
      · rcases List.mem_cons.mp hp2 with rfl | hp3
        · exact ⟨by decide, "low", rfl, rfl⟩
        · cases hp3)
    (by
      intro p hp
      rcases List.mem_cons.mp hp with rfl | hp2
      · rfl
      · rcases List.mem_cons.mp hp2 with rfl | hp3
        · rfl
        · cases hp3)
    (by
      intro p hp q hq
      rcases List.mem_cons.mp hp with rfl | hp2
      · have h2 : some convertedHighSample = some q := hq
        obtain rfl := Option.some_inj.mp h2
        exact trivial
      · rcases List.mem_cons.mp hp2 with rfl | hp3
        · have h2 : some convertedLowSample = some q := hq
          obtain rfl := Option.some_inj.mp h2
          exact trivial
        · cases hp3)
  exact ⟨h.1, h.2.2.1, h.2.2.2.1, h.2.2.2.2⟩

/-! ## C10: unknown deviceId falls back to the most recently seen device -/

/-- C10: when at least one device exists and the deviceId query parameter
matches no registered device, the dashboard silently builds the same
response as a request without deviceId, selecting the device with the most
recent last-seen timestamp; no error and no empty state is returned. -/
theorem dashboard_unknown_deviceId_falls_back (now : Int) (q : DashboardQuery) (db : Db)
    (s : String) (hq : q.deviceId = some s) (hs : s ≠ "")
    (hne : db.devices ≠ [])
    (hmiss : ∀ d ∈ db.devices, d.deviceId ≠ s) :
    dashboardGET now q db = dashboardGET now { q with deviceId := none } db
    ∧ ∃ sel : DeviceRow, sel ∈ db.devices
        ∧ (dashboardGET now q db).selectedDevice = some sel.toInfo
        ∧ ∀ d ∈ db.devices, d.lastSeenAt ≤ sel.lastSeenAt := by
  cases hsorted : db.devices.mergeSort (fun a b => decide (b.lastSeenAt ≤ a.lastSeenAt)) with
  | nil =>
      exfalso
      have hperm := List.mergeSort_perm db.devices
        (fun a b => decide (b.lastSeenAt ≤ a.lastSeenAt))
      rw [hsorted] at hperm
      exact hne hperm.symm.eq_nil
  | cons d0 rest =>
      have hmem_sorted : ∀ x, x ∈ d0 :: rest → x ∈ db.devices := by
        intro x hx
        rw [← hsorted] at hx
        exact List.mem_mergeSort.mp hx
      have hfind : (d0 :: rest).find? (fun d => some d.deviceId == q.deviceId) = none := by
        rw [List.find?_eq_none]
        intro x hx
        simp only [hq, beq_iff_eq, Option.some_inj]
        exact hmiss x (hmem_sorted x hx)
      have htr : truthyStr q.deviceId = true := by
        rw [hq]
        simp [truthyStr, hs]
      have hsel1 : selectDevice (d0 :: rest) d0 q.deviceId = d0 := by
        simp [selectDevice, htr, hfind]
      have hsel2 : selectDevice (d0 :: rest) d0 none = d0 := by
        simp [selectDevice, truthyStr]
      have hpair := @List.sorted_mergeSort DeviceRow
        (fun a b => decide (b.lastSeenAt ≤ a.lastSeenAt))
        (fun a b c hab hbc => by
          simp only [decide_eq_true_eq] at hab hbc ⊢
          exact le_trans hbc hab)
        (fun a b => by
          rcases le_total a.lastSeenAt b.lastSeenAt with h | h <;> simp [h])
        db.devices
      rw [hsorted] at hpair
      have hmax : ∀ d ∈ db.devices, d.lastSeenAt ≤ d0.lastSeenAt := by
        intro d hd
        have hd' : d ∈ d0 :: rest := by
          rw [← hsorted]
          exact List.mem_mergeSort.mpr hd
        rcases List.mem_cons.mp hd' with rfl | hdr
        · exact le_rfl
        · exact of_decide_eq_true ((List.pairwise_cons.mp hpair).1 d hdr)
      constructor
      · simp only [dashboardGET, hsorted, hsel1, hsel2]
      · refine ⟨d0, hmem_sorted d0 (by simp), ?_, hmax⟩
        simp only [dashboardGET, hsorted, hsel1]

def sampleDeviceRowB : DeviceRow where
  id := 6
  deviceId := "dev-b"
  name := some "dev-b"
  createdAt := 20
  lastSeenAt := 20

def sampleTwoDeviceDb : Db :=
  { emptyDb with devices := [sampleDeviceRow, sampleDeviceRowB], nextDeviceId := 7 }

/-- Witness for C10: an unmatched deviceId yields the same dashboard as no
deviceId on a two-device store. -/
theorem dashboard_unknown_deviceId_falls_back_witness :
    dashboardGET 0 { deviceId := some "ghost", hours := none, limit := none }
        sampleTwoDeviceDb
      = dashboardGET 0 { deviceId := none, hours := none, limit := none }
        sampleTwoDeviceDb := by
  have h := dashboard_unknown_deviceId_falls_back 0
    { deviceId := some "ghost", hours := none, limit := none } sampleTwoDeviceDb "ghost"
    rfl (by decide) (by decide) (by decide)
  exact h.1

/-! ## C7: dashboard time window, limit, fetch order and series order -/

/-- The four series of a dashboard response are in ascending timestamp
order. -/
def seriesTimestampsAscending (dd : DashboardData) : Prop :=
  dd.battery.Pairwise (fun a b => a.timestamp ≤ b.timestamp)
  ∧ dd.thermal.Pairwise (fun a b => a.timestamp ≤ b.timestamp)
  ∧ dd.cpuLoad.Pairwise (fun a b => a.timestamp ≤ b.timestamp)
  ∧ dd.memory.Pairwise (fun a b => a.timestamp ≤ b.timestamp)

/-- A series timestamp originates from a reading of the selected device
whose timestamp is at least the cutoff. -/
def pointFromWindow (db : Db) (selectedId : Nat) (cutoff : Int) (ts : Int) : Prop :=
  ∃ r ∈ db.readings, r.deviceId = selectedId ∧ cutoff ≤ r.timestamp ∧ ts = r.timestamp

theorem sortSeries_pairwise {α : Type} (ts : α → Int) (l : List α) :
    (sortSeries ts l).Pairwise (fun a b => ts a ≤ ts b) := by
  have h := @List.sorted_mergeSort _ (fun a b => decide (ts a ≤ ts b))
    (fun a b c hab hbc => by
      simp only [decide_eq_true_eq] at hab hbc ⊢
      exact le_trans hab hbc)
    (fun a b => by
      rcases le_total (ts a) (ts b) with hle | hle <;> simp [hle])
    l
  exact h.imp (fun hab => of_decide_eq_true hab)

theorem mem_sortSeries {α : Type} {ts : α → Int} {l : List α} {a : α} :
    a ∈ sortSeries ts l ↔ a ∈ l := List.mem_mergeSort

/-- Every reading the dashboard fetch chooses belongs to the selected device
and lies at or after the cutoff. -/
theorem dashboardReadings_mem {db : Db} {selectedId : Nat} {cutoff : Int} {lim : Nat}
    {r : ReadingRow} (h : r ∈ dashboardReadings db selectedId cutoff lim) :
    r ∈ db.readings ∧ r.deviceId = selectedId ∧ cutoff ≤ r.timestamp := by
  unfold dashboardReadings at h
  have h1 := List.mem_of_mem_take h
  rw [List.mem_mergeSort] at h1
  have h2 := List.mem_filter.mp h1
  have h3 := h2.2
  simp only [Bool.and_eq_true, beq_iff_eq, decide_eq_true_eq] at h3
  exact ⟨h2.1, h3.1, h3.2⟩

/-- Generic provenance of a joined series point: it was built from a child
row keyed by a chosen reading id, joined to the reading found by that id;
with distinct reading ids that reading is the chosen one. -/
theorem mem_joined_series {β γ : Type} (db : Db) (selectedId : Nat) (cutoff : Int)
    (lim : Nat) (table : List β) (rowRid : β → Nat) (g : β → ReadingRow → γ)
    (ts : γ → Int) (hg : ∀ b r, ts (g b r) = r.timestamp)
    (hids : (db.readings.map (fun r => r.id)).Nodup) (pt : γ)
    (hpt : pt ∈ (table.filter (fun b =>
        ((dashboardReadings db selectedId cutoff lim).map (fun r => r.id)).contains
          (rowRid b))).filterMap
        (fun b => (findReading db (rowRid b)).map (g b))) :
    pointFromWindow db selectedId cutoff (ts pt) := by
  obtain ⟨b, hb, hbmap⟩ := List.mem_filterMap.mp hpt
  cases hfr : findReading db (rowRid b) with
  | none => rw [hfr] at hbmap; simp at hbmap
  | some r =>
      rw [hfr] at hbmap
      simp only [Option.map_some', Option.some_inj] at hbmap
      have hmemf := List.mem_filter.mp hb
      have hin : rowRid b ∈ (dashboardReadings db selectedId cutoff lim).map
          (fun r => r.id) := by
        have := hmemf.2
        simpa using this
      obtain ⟨rr, hrr, hrrid⟩ := List.mem_map.mp hin
      have hrrfacts := dashboardReadings_mem hrr
      have hr1 : r ∈ db.readings := List.mem_of_find?_eq_some hfr
      have hr2 : r.id = rowRid b := by
        have := List.find?_some hfr
        simpa using this
      have hreq : r = rr := eq_of_nodup_map_key hids hr1 hrrfacts.1 (by rw [hr2, hrrid])
      refine ⟨rr, hrrfacts.1, hrrfacts.2.1, hrrfacts.2.2, ?_⟩
      rw [← hbmap, hg, hreq]

/-- C7 (amended): series points come only from readings of the selected
device with timestamp at or after `now - hours` (the fetch has no upper
bound at `now`); at most `limit` readings are considered, namely the most
recent ones of that window, fetched in descending timestamp order (any
window reading left out is no newer than every chosen one); and the battery,
thermal, cpuLoad and memory series are each in ascending timestamp order.
The `Nodup` hypothesis is the readings table's primary-key constraint. -/
theorem dashboard_series_window_limit_sorted (now : Int) (q : DashboardQuery) (db : Db)
    (hids : (db.readings.map (fun r => r.id)).Nodup) :
    seriesTimestampsAscending (dashboardGET now q db)
    ∧ (∀ sel, (dashboardGET now q db).selectedDevice = some sel →
        (∀ pt ∈ (dashboardGET now q db).battery,
          pointFromWindow db sel.id (now - q.hours.getD 24 * 60 * 60 * 1000) pt.timestamp)
        ∧ (∀ pt ∈ (dashboardGET now q db).thermal,
          pointFromWindow db sel.id (now - q.hours.getD 24 * 60 * 60 * 1000) pt.timestamp)
        ∧ (∀ pt ∈ (dashboardGET now q db).cpuLoad,
          pointFromWindow db sel.id (now - q.hours.getD 24 * 60 * 60 * 1000) pt.timestamp)
        ∧ (∀ pt ∈ (dashboardGET now q db).memory,
          pointFromWindow db sel.id (now - q.hours.getD 24 * 60 * 60 * 1000) pt.timestamp))
    ∧ (∀ selectedId cutoff lim,
        (dashboardReadings db selectedId cutoff lim).length ≤ lim
        ∧ (dashboardReadings db selectedId cutoff lim).Pairwise
            (fun a b => b.timestamp ≤ a.timestamp)
        ∧ (∀ r ∈ dashboardReadings db selectedId cutoff lim,
            r.deviceId = selectedId ∧ cutoff ≤ r.timestamp)
        ∧ (∀ r ∈ db.readings, r.deviceId = selectedId → cutoff ≤ r.timestamp →
            r ∉ dashboardReadings db selectedId cutoff lim →
            ∀ c ∈ dashboardReadings db selectedId cutoff lim,
              r.timestamp ≤ c.timestamp)) := by
  have hreadSorted : ∀ (selectedId : Nat) (cutoff : Int),
      ((db.readings.filter (fun r => r.deviceId == selectedId
        && decide (cutoff ≤ r.timestamp))).mergeSort
        (fun a b => decide (b.timestamp ≤ a.timestamp))).Pairwise
        (fun a b => decide (b.timestamp ≤ a.timestamp) = true) := by
    intro selectedId cutoff
    exact List.sorted_mergeSort
      (fun a b c hab hbc => by
        simp only [decide_eq_true_eq] at hab hbc ⊢
        exact le_trans hbc hab)
      (fun a b => by
        rcases le_total a.timestamp b.timestamp with hle | hle <;> simp [hle])
      _
  refine ⟨?_, ?_, ?_⟩
  · cases hsorted : db.devices.mergeSort
        (fun a b => decide (b.lastSeenAt ≤ a.lastSeenAt)) with
    | nil =>
        simp only [dashboardGET, hsorted]
        exact ⟨List.Pairwise.nil, List.Pairwise.nil, List.Pairwise.nil,
          List.Pairwise.nil⟩
    | cons d0 rest =>
        simp only [dashboardGET, hsorted]
        exact ⟨sortSeries_pairwise _ _, sortSeries_pairwise _ _,
          sortSeries_pairwise _ _, sortSeries_pairwise _ _⟩
  · cases hsorted : db.devices.mergeSort
        (fun a b => decide (b.lastSeenAt ≤ a.lastSeenAt)) with
    | nil =>
        simp only [dashboardGET, hsorted, emptyDashboardData]
        intro sel hsel
        cases hsel
    | cons d0 rest =>
        intro sel hsel
        simp only [dashboardGET, hsorted] at hsel ⊢
        rw [Option.some_inj] at hsel
        subst hsel
        refine ⟨?_, ?_, ?_, ?_⟩ <;>
          intro pt hpt <;>
          rw [mem_sortSeries] at hpt
        · exact mem_joined_series db _ _ _ db.batteryReadings
            (fun b => b.readingId) _ (fun pt => pt.timestamp) (fun b r => rfl) hids pt hpt
        · exact mem_joined_series db _ _ _ db.thermalSummaryReadings
            (fun b => b.readingId) _ (fun pt => pt.timestamp) (fun b r => rfl) hids pt hpt
        · exact mem_joined_series db _ _ _ db.cpuLoadReadings
            (fun b => b.readingId) _ (fun pt => pt.timestamp) (fun b r => rfl) hids pt hpt
        · exact mem_joined_series db _ _ _ db.memoryReadings
            (fun b => b.readingId) _ (fun pt => pt.timestamp) (fun b r => rfl) hids pt hpt
  · intro selectedId cutoff lim
    refine ⟨List.length_take_le _ _, ?_, fun r hr => (dashboardReadings_mem hr).2, ?_⟩
    · exact (List.Pairwise.sublist (List.take_sublist _ _)
        (hreadSorted selectedId cutoff)).imp (fun hab => of_decide_eq_true hab)
    · intro r hrmem hrdev hrts hrnot c hc
      have hrS : r ∈ (db.readings.filter (fun r => r.deviceId == selectedId
          && decide (cutoff ≤ r.timestamp))).mergeSort
          (fun a b => decide (b.timestamp ≤ a.timestamp)) := by
        rw [List.mem_mergeSort, List.mem_filter]
        exact ⟨hrmem, by simp [hrdev, hrts]⟩
      have hS := hreadSorted selectedId cutoff
      rw [← List.take_append_drop lim ((db.readings.filter (fun r =>
        r.deviceId == selectedId && decide (cutoff ≤ r.timestamp))).mergeSort
        (fun a b => decide (b.timestamp ≤ a.timestamp)))] at hS hrS
      obtain ⟨hp1, hp2, hp3⟩ := List.pairwise_append.mp hS
      have hrdrop : r ∈ ((db.readings.filter (fun r => r.deviceId == selectedId
          && decide (cutoff ≤ r.timestamp))).mergeSort
          (fun a b => decide (b.timestamp ≤ a.timestamp))).drop lim := by
        rcases List.mem_append.mp hrS with hcase | hcase
        · exact absurd hcase hrnot
        · exact hcase
      exact of_decide_eq_true (hp3 c hc r hrdrop)

theorem mergeSort_singleton {α : Type} (le : α → α → Bool) (a : α) :
    [a].mergeSort le = [a] :=
  List.mergeSort_of_sorted (by simp)

def futureReading : ReadingRow where
  id := 1
  deviceId := 5
  timestamp := 3601000
  timestampMs := 0
  frequency := .high

def futureBattery : BatteryRow where
  readingId := 1
  capacity := 50
  status := "Discharging"
  voltage := 4
  current := -1
  temperature := 30
  chargeFull := 1
  chargeFullDesign := 1
  health := "Good"
  present := true
  chargeType := "Standard"
  energyFullDesign := 1

/-- One device, one high reading timestamped one hour AFTER `now = 1000`,
with its battery row. -/
def futureDb : Db :=
  { emptyDb with
      devices := [sampleDeviceRow]
      nextDeviceId := 6
      readings := [futureReading]
      nextReadingId := 2
      batteryReadings := [futureBattery] }

def futureQuery : DashboardQuery where
  deviceId := none
  hours := some 1
  limit := some 10

/-- Counterexample to C7 as stated: with `hours = 1` and `now = 1000`, a
reading timestamped 3601000 — strictly after `now`, so outside
`[now - hours, now]` — still contributes a battery series point, because the
source filters only on `timestamp >= now - hours` with no upper bound. -/
theorem dashboard_window_upper_bound_counterexample :
    ((dashboardGET 1000 futureQuery futureDb).battery.map (fun pt => pt.timestamp))
      = [3601000]
    ∧ ¬ ((3601000 : Int) ≤ 1000) := by
  constructor
  · simp +decide [dashboardGET, mergeSort_singleton, selectDevice, truthyStr,
      futureQuery, futureDb, dashboardReadings, batterySeriesData, findReading,
      sortSeries, emptyDb, sampleDeviceRow, futureReading, futureBattery]
  · decide

/-- Witness for the amended C7 on a concrete store. -/
theorem dashboard_series_window_limit_sorted_witness :
    seriesTimestampsAscending (dashboardGET 1000 futureQuery futureDb)
    ∧ (dashboardReadings futureDb 5 (1000 - 1 * 60 * 60 * 1000) 10).length ≤ 10 := by
  have h := dashboard_series_window_limit_sorted 1000 futureQuery futureDb (by decide)
  exact ⟨h.1, (h.2.2 5 (1000 - 1 * 60 * 60 * 1000) 10).1⟩
